import Mathlib

/-!
# JWT + TOTP authentication backend: shallow embedding and verified properties

The development embeds the service layer of `next-node-jwt-totp-auth/backend`:

* `storage/memoryStore.js`  — the two process-wide `Map`s,
* `config/environment.js` — the two configuration values and `validateEnvironment`,
* `services/cryptoService.js` — `encryptSecret`, `decryptSecret`, `generateBackupCodes`,
* `services/totpService.js` — `setupTOTP`, `verifyTOTPCode`, `getTOTPStatus`,
  `disableTOTP`, `isTOTPRequired`,
* `services/authService.js` — `registerUser`, `authenticateUser`, `generateToken`,
* `routes/auth.js` — the `POST /login` handler.

Stateful code is written in store-passing style: every operation takes the
current contents of the maps and returns its result together with the new
contents.  Calls into npm packages (`crypto`, `speakeasy`, `qrcode`,
`bcryptjs`, `jsonwebtoken`) are fields of `Lib`; a call that can throw returns
`Except String _`.  Values drawn from the random source or the clock during
one call are passed in as an explicit "draw" argument.
-/

namespace TotpAuth

/-! ## JavaScript `Map` with string keys -/

/-- A JavaScript `Map` keyed by strings, as the list of its entries in insertion order. -/
abbrev JsMap (α : Type) := List (String × α)

namespace JsMap

/-- Embeds `Map.prototype.get`: the value of the first entry with the given key (`none` is `undefined`). -/
def get {α : Type} : JsMap α → String → Option α
  | [], _ => none
  | (k, v) :: t, key => if k = key then some v else get t key

/-- Embeds `Map.prototype.has`. -/
def has {α : Type} (m : JsMap α) (key : String) : Bool :=
  (get m key).isSome

/-- Embeds `Map.prototype.set`: overwrite the entry in place when the key is present, append otherwise. -/
def set {α : Type} : JsMap α → String → α → JsMap α
  | [], key, val => [(key, val)]
  | (k, v) :: t, key, val => if k = key then (key, val) :: t else (k, v) :: set t key val

/-- Embeds `Map.prototype.delete`: drop the entry with the given key. -/
def delete {α : Type} (m : JsMap α) (key : String) : JsMap α :=
  m.filter (fun kv => decide (kv.1 ≠ key))

end JsMap

/-! ## Truthiness of optional strings -/

/-- JavaScript truthiness of a value that is either `undefined` or a string:
only a non-empty string is truthy. -/
def truthy : Option String → Bool
  | none => false
  | some s => decide (s ≠ "")

/-! ## Configuration and library interface -/

/-- The two values read from `process.env` in `config/environment.js`
(`none` when the variable is not set). -/
structure Env where
  JWT_SECRET : Option String
  ENCRYPTION_KEY : Option String

/-- Result of `speakeasy.generateSecret`. -/
structure GeneratedSecret where
  base32 : String
  otpauth_url : String
deriving DecidableEq, Repr

/-- The npm / node library calls used by the services. -/
structure Lib where
  /-- Embeds `crypto.createHash("sha256").update(s).digest("hex")` -/
  sha256Hex : String → String
  /-- Embeds `crypto.createHash("sha256").update(s).digest()` as a list of bytes -/
  sha256 : String → List Nat
  /-- Embeds `Buffer.from(s, "hex")` as a list of bytes -/
  hexDecode : String → List Nat
  /-- Embeds `createCipher("aes-256-cbc", key)` followed by `update(secret, "utf8", "hex") + final("hex")` -/
  cipherHex : List Nat → String → Except String String
  /-- Embeds `createDecipher("aes-256-cbc", key)` followed by `update(c, "hex", "utf8") + final("utf8")` -/
  decipherUtf8 : List Nat → String → Except String String
  /-- Embeds `Buffer.from(s).toString("base64")` -/
  base64Encode : String → String
  /-- Embeds `Buffer.from(s, "base64").toString("utf8")` -/
  base64Decode : String → Except String String
  /-- Embeds `speakeasy.generateSecret` for a display name; the second argument is the random seed -/
  generateSecret : String → Nat → Except String GeneratedSecret
  /-- Embeds `speakeasy.totp` with base32 encoding at a given time -/
  totp : String → Nat → Except String String
  /-- Embeds `speakeasy.totp.verify` with base32 encoding: secret, token, window, time -/
  totpVerify : String → String → Nat → Nat → Except String Bool
  /-- Embeds `QRCode.toDataURL` -/
  toDataURL : String → Except String String
  /-- Embeds `bcrypt.hash(password, rounds)`; the third argument is the random salt -/
  bcryptHash : String → Nat → Nat → Except String String
  /-- Embeds `bcrypt.compare(password, hash)` -/
  bcryptCompare : String → String → Except String Bool
  /-- Embeds `jwt.sign` of the payload with id and email, the signing key, and the issue time -/
  jwtSign : String → String → Option String → Nat → Except String String

/-! ## cryptoService.js -/

/-- Embeds `String.prototype.length`: the number of UTF-16 code units. -/
def jsLength (s : String) : Nat :=
  s.toList.foldl (fun n c => n + (if c.toNat < 65536 then 1 else 2)) 0

/-- Embeds `s.includes(":")`. -/
def includesColon (s : String) : Bool :=
  s.toList.any (fun c => decide (c = ':'))

/-- Embeds `s.split(":")` on a list of characters. -/
def splitColonChars : List Char → List (List Char)
  | [] => [[]]
  | c :: cs =>
    if c = ':' then [] :: splitColonChars cs
    else
      match splitColonChars cs with
      | [] => [[c]]
      | h :: t => (c :: h) :: t

/-- Embeds `s.split(":")`. -/
def splitColon (s : String) : List String :=
  (splitColonChars s.toList).map String.mk

/-- The key derivation shared by `encryptSecret` and `decryptSecret`;
reading `.length` of an absent key throws. -/
def deriveKey (L : Lib) (E : Env) : Except String (List Nat) :=
  match E.ENCRYPTION_KEY with
  | none => .error "Cannot read properties of undefined (reading length)"
  | some k => if jsLength k = 64 then .ok (L.hexDecode k) else .ok (L.sha256 k)

/-- The `try` block of `encryptSecret`; `iv` is `crypto.randomBytes(16).toString("hex")`. -/
def encryptSecretTry (L : Lib) (E : Env) (iv : String) (secret : String) : Except String String :=
  match deriveKey L E with
  | .error e => .error e
  | .ok key =>
    match L.cipherHex key secret with
    | .error e => .error e
    | .ok encrypted => .ok (iv ++ ":" ++ encrypted)

/-- Embeds `encryptSecret`: on any error fall back to base64 of the secret. -/
def encryptSecret (L : Lib) (E : Env) (iv : String) (secret : String) : String :=
  match encryptSecretTry L E iv secret with
  | .ok s => s
  | .error _ => L.base64Encode secret

/-- The outer `try` block of `decryptSecret`. -/
def decryptSecretTry (L : Lib) (E : Env) (encryptedSecret : String) : Except String String :=
  if !(includesColon encryptedSecret) then L.base64Decode encryptedSecret
  else
    match deriveKey L E with
    | .error e => .error e
    | .ok key =>
      match splitColon encryptedSecret with
      | [_, encrypted] => L.decipherUtf8 key encrypted
      | _ => .error "Invalid encrypted data format"

/-- Embeds `decryptSecret`: on any error retry as base64, and throw if that throws too. -/
def decryptSecret (L : Lib) (E : Env) (encryptedSecret : String) : Except String String :=
  match decryptSecretTry L E encryptedSecret with
  | .ok s => .ok s
  | .error _ =>
    match L.base64Decode encryptedSecret with
    | .ok s => .ok s
    | .error _ => .error "Failed to decrypt secret"

/-- One lower-case hexadecimal digit. -/
def hexDigit (n : Nat) : Char :=
  if n < 10 then Char.ofNat (48 + n) else Char.ofNat (87 + n)

/-- Embeds `buf.toString("hex")` for a list of bytes. -/
def hexOfBytes (bs : List Nat) : List Char :=
  bs.flatMap (fun b => [hexDigit (b % 256 / 16), hexDigit (b % 16)])

/-- The four bytes of one `crypto.randomBytes(4)` draw, given as a 32-bit number. -/
def bytes4 (w : Nat) : List Nat :=
  [w / 16777216 % 256, w / 65536 % 256, w / 256 % 256, w % 256]

/-- Embeds `generateBackupCodes(count)`; `rand i` is the outcome of the `i`-th `randomBytes(4)` call. -/
def generateBackupCodes (rand : Nat → Nat) (count : Nat := 8) : List String :=
  (List.range count).map
    (fun i => String.mk ((hexOfBytes (bytes4 (rand i))).map Char.toUpper))

/-- Value of one hexadecimal digit as the hex decoder of node reads it
(`none` for any other character). -/
def unhex (c : Char) : Option Nat :=
  if 48 ≤ c.toNat ∧ c.toNat ≤ 57 then some (c.toNat - 48)
  else if 97 ≤ c.toNat ∧ c.toNat ≤ 102 then some (c.toNat - 87)
  else if 65 ≤ c.toNat ∧ c.toNat ≤ 70 then some (c.toNat - 55)
  else none

/-- Behaviour of `Buffer.from(s, "hex")` in node: pairs of characters are decoded
until the first pair that is not two hexadecimal digits, where the data is
truncated; a trailing single character is dropped. -/
def bufferFromHex : List Char → List Nat
  | a :: b :: rest =>
    match unhex a, unhex b with
    | some x, some y => (16 * x + y) :: bufferFromHex rest
    | _, _ => []
  | _ => []

/-! ## config/environment.js -/

/-- Embeds `validateEnvironment()`: the list of `console.warn` messages when it
returns, `.error` when it throws.  `ENCRYPTION_KEY.substring(0, 8)` in the final
`console.log` throws when the key is `undefined`. -/
def validateEnvironment (E : Env) : Except String (List String) :=
  let warnJwt :=
    if !(truthy E.JWT_SECRET) then ["⚠️  JWT_SECRET not found in .env file, using fallback"]
    else []
  let warnKey :=
    if !(truthy E.ENCRYPTION_KEY) then
      ["⚠️  ENCRYPTION_KEY not found in .env file, generating random key"]
    else []
  match E.ENCRYPTION_KEY with
  | none => .error "Cannot read properties of undefined (reading substring)"
  | some _ => .ok (warnJwt ++ warnKey)

/-! ## totpService.js -/

/-- One record of the `totpSettings` map. -/
structure TotpSettings where
  totp_secret_encrypted : String
  is_enabled : Bool
  is_verified : Bool
  backup_codes_hash : List String
  failed_attempts : Nat
  locked_until : Option Nat
  created_at : Nat
deriving DecidableEq, Repr

/-- Contents of the `totpSettings` map, keyed by user id. -/
abbrev TotpStore := JsMap TotpSettings

/-- Values drawn from the random source and the clock during one `setupTOTP` call. -/
structure SetupDraw where
  /-- randomness consumed by `speakeasy.generateSecret` -/
  seed : Nat
  /-- Embeds `crypto.randomBytes(16).toString("hex")` inside `encryptSecret` -/
  iv : String
  /-- outcome of the `i`-th `crypto.randomBytes(4)` inside `generateBackupCodes` -/
  rand : Nat → Nat
  /-- Embeds `new Date()` -/
  now : Nat

/-- The object returned by `setupTOTP`. -/
structure SetupResult where
  success : Bool
  error : Option String
  qrCode : Option String
  backupCodes : Option (List String)
  manualEntryKey : Option String
  instructions : Option (List (String × String))
deriving DecidableEq, Repr

/-- The object returned by the `catch` block of `setupTOTP`. -/
def setupFailure : SetupResult :=
  { success := false, error := some "Failed to setup TOTP", qrCode := none,
    backupCodes := none, manualEntryKey := none, instructions := none }

/-- The `instructions` object of a successful `setupTOTP` result. -/
def setupInstructions : List (String × String) :=
  [("step1", "Install Google Authenticator app on your phone"),
   ("step2", "Scan the QR code or enter the manual key"),
   ("step3", "Enter the 6-digit code from the app to verify setup")]

/-- Embeds `setupTOTP(userId, userEmail)`: steps 1 to 5 in source order; an exception in
any step is caught and turned into the failure object, keeping whatever the
store holds at that point. -/
def setupTOTP (L : Lib) (E : Env) (totpSettings : TotpStore) (userId userEmail : String)
    (d : SetupDraw) : SetupResult × TotpStore :=
  -- 1. Generate TOTP secret
  match L.generateSecret ("2FA Demo (" ++ userEmail ++ ")") d.seed with
  | .error _ => (setupFailure, totpSettings)
  | .ok secret =>
    -- 2. Encrypt and store secret
    let encryptedSecret := encryptSecret L E d.iv secret.base32
    -- 3. Generate backup codes
    let backupCodes := generateBackupCodes d.rand
    let hashedBackupCodes := backupCodes.map L.sha256Hex
    -- 4. Store in memory
    let stored := JsMap.set totpSettings userId
      { totp_secret_encrypted := encryptedSecret
        is_enabled := false
        is_verified := false
        backup_codes_hash := hashedBackupCodes
        failed_attempts := 0
        locked_until := none
        created_at := d.now }
    -- 5. Generate QR code
    match L.toDataURL secret.otpauth_url with
    | .error _ => (setupFailure, stored)
    | .ok qrCodeDataURL =>
      ({ success := true, error := none, qrCode := some qrCodeDataURL,
         backupCodes := some backupCodes, manualEntryKey := some secret.base32,
         instructions := some setupInstructions }, stored)

/-- The small result objects with fields `success`, `error`, `message`. -/
structure ServiceResult where
  success : Bool
  error : Option String
  message : Option String
deriving DecidableEq, Repr

/-- Embeds `verifyTOTPCode(userId, userInputCode)` at clock value `now`.  The function has
no `try`: an exception of `decryptSecret` or of speakeasy propagates (first
component `.error`), which can only happen before the record is touched. -/
def verifyTOTPCode (L : Lib) (E : Env) (totpSettings : TotpStore) (userId userInputCode : String)
    (now : Nat) : Except String ServiceResult × TotpStore :=
  match JsMap.get totpSettings userId with
  | none => (.ok { success := false, error := some "TOTP not set up", message := none }, totpSettings)
  | some userTotpSettings =>
    match decryptSecret L E userTotpSettings.totp_secret_encrypted with
    | .error e => (.error e, totpSettings)
    | .ok decryptedSecret =>
      -- expected code, computed for logging only
      match L.totp decryptedSecret now with
      | .error e => (.error e, totpSettings)
      | .ok _ =>
        match L.totpVerify decryptedSecret userInputCode 5 now with
        | .error e => (.error e, totpSettings)
        | .ok true =>
          (.ok { success := true, error := none, message := some "TOTP verified" },
           JsMap.set totpSettings userId
             { userTotpSettings with is_verified := true, is_enabled := true, failed_attempts := 0 })
        | .ok false =>
          (.ok { success := false, error := some "Invalid code", message := none }, totpSettings)

/-- The object returned by `getTOTPStatus`. -/
structure TotpStatus where
  enabled : Bool
  verified : Bool
  setupRequired : Bool
deriving DecidableEq, Repr

/-- Embeds `getTOTPStatus(userId)`. -/
def getTOTPStatus (totpSettings : TotpStore) (userId : String) : TotpStatus :=
  let userTotpSettings := JsMap.get totpSettings userId
  { enabled := ((userTotpSettings.map (·.is_enabled)).getD false) || false
    verified := ((userTotpSettings.map (·.is_verified)).getD false) || false
    setupRequired := userTotpSettings.isNone }

/-- Embeds `disableTOTP(userId)`. -/
def disableTOTP (totpSettings : TotpStore) (userId : String) : ServiceResult × TotpStore :=
  ({ success := true, error := none, message := some "TOTP disabled successfully" },
   JsMap.delete totpSettings userId)

/-- Embeds `isTOTPRequired(userId)`: the value of
`userTotpSettings?.is_enabled && userTotpSettings?.is_verified`, where `none`
stands for `undefined`. -/
def isTOTPRequired (totpSettings : TotpStore) (userId : String) : Option Bool :=
  match JsMap.get totpSettings userId with
  | none => none
  | some userTotpSettings =>
    if userTotpSettings.is_enabled then some userTotpSettings.is_verified
    else some userTotpSettings.is_enabled

/-! ## authService.js -/

/-- One record of the `users` map. -/
structure User where
  id : String
  email : String
  password : String
  createdAt : Nat
deriving DecidableEq, Repr

/-- Contents of the `users` map, keyed by email. -/
abbrev UserStore := JsMap User

/-- Values drawn from the random source and the clock during one `registerUser` call. -/
structure RegisterDraw where
  /-- salt drawn by `bcrypt.hash` -/
  salt : Nat
  /-- result of `crypto.randomUUID()` -/
  uuid : String
  /-- value of `new Date()` -/
  now : Nat

/-- The object returned by `registerUser`. -/
structure RegisterResult where
  success : Bool
  error : Option String
  message : Option String
  userId : Option String
deriving DecidableEq, Repr

/-- A failing `registerUser` result with the given error text. -/
def registerFailure (msg : String) : RegisterResult :=
  { success := false, error := some msg, message := none, userId := none }

/-- Embeds `registerUser(email, password)`; an argument is `none` when the request
body does not carry the field. -/
def registerUser (L : Lib) (users : UserStore) (email password : Option String)
    (d : RegisterDraw) : RegisterResult × UserStore :=
  if !(truthy email) || !(truthy password) then
    (registerFailure "Email and password required", users)
  else
    let email := email.getD ""
    let password := password.getD ""
    if JsMap.has users email then
      (registerFailure "User already exists", users)
    else
      match L.bcryptHash password 10 d.salt with
      | .error _ => (registerFailure "Registration failed", users)
      | .ok hashedPassword =>
        let userId := d.uuid
        ({ success := true, error := none, message := some "User registered successfully",
           userId := some userId },
         JsMap.set users email
           { id := userId, email := email, password := hashedPassword, createdAt := d.now })

/-- The `user` object handed out by `authenticateUser`. -/
structure PublicUser where
  id : String
  email : String
deriving DecidableEq, Repr

/-- The object returned by `authenticateUser`. -/
structure AuthResult where
  success : Bool
  error : Option String
  user : Option PublicUser
deriving DecidableEq, Repr

/-- A failing `authenticateUser` result with the given error text. -/
def authFailure (msg : String) : AuthResult :=
  { success := false, error := some msg, user := none }

/-- Embeds `authenticateUser(email, password)`. -/
def authenticateUser (L : Lib) (users : UserStore) (email password : Option String) : AuthResult :=
  if !(truthy email) || !(truthy password) then
    authFailure "Email and password required"
  else
    let email := email.getD ""
    let password := password.getD ""
    match JsMap.get users email with
    | none => authFailure "Invalid credentials"
    | some user =>
      match L.bcryptCompare password user.password with
      | .error _ => authFailure "Authentication failed"
      | .ok false => authFailure "Invalid credentials"
      | .ok true =>
        { success := true, error := none, user := some { id := user.id, email := user.email } }

/-- Embeds `generateToken(user)` at clock value `now`. -/
def generateToken (L : Lib) (E : Env) (user : PublicUser) (now : Nat) : Except String String :=
  L.jwtSign user.id user.email E.JWT_SECRET now

/-! ## routes/auth.js: `POST /login` -/

/-- Status code and JSON body of a login response (`none` for a field the body lacks). -/
structure LoginResponse where
  status : Nat
  success : Option Bool
  error : Option String
  message : Option String
  requiresTOTP : Option Bool
  token : Option String
  user : Option PublicUser
  totpEnabled : Option Bool
deriving DecidableEq, Repr

/-- A response whose body is the single field `error`. -/
def errorResponse (status : Nat) (error : Option String) : LoginResponse :=
  { status := status, success := none, error := error, message := none,
    requiresTOTP := none, token := none, user := none, totpEnabled := none }

/-- The response that asks for the second factor. -/
def requiresTOTPResponse : LoginResponse :=
  { status := 200, success := some false, error := none,
    message := some "Please enter your Google Authenticator code",
    requiresTOTP := some true, token := none, user := none, totpEnabled := none }

/-- Step 4 of the login handler: mint the token and answer with it. -/
def loginIssue (L : Lib) (E : Env) (totpSettings : TotpStore) (user : PublicUser)
    (totpRequired : Option Bool) (now : Nat) : Except String LoginResponse × TotpStore :=
  match generateToken L E user now with
  | .error e => (.error e, totpSettings)
  | .ok token =>
    (.ok { status := 200, success := some true, error := none, message := none,
           requiresTOTP := none, token := some token, user := some user,
           totpEnabled := totpRequired }, totpSettings)

/-- The `try` block of the login handler; the first component is `.error` when an
exception escapes it. -/
def loginTry (L : Lib) (E : Env) (users : UserStore) (totpSettings : TotpStore)
    (email password totpCode : Option String) (now : Nat) :
    Except String LoginResponse × TotpStore :=
  -- 1. Verify credentials
  let authResult := authenticateUser L users email password
  if !authResult.success then
    (.ok (errorResponse 401 authResult.error), totpSettings)
  else
    match authResult.user with
    | none => (.error "Cannot read properties of undefined (reading id)", totpSettings)
    | some user =>
      -- 2. Check if TOTP is required
      let totpRequired := isTOTPRequired totpSettings user.id
      if totpRequired = some true then
        if !(truthy totpCode) then
          (.ok requiresTOTPResponse, totpSettings)
        else
          -- 3. Verify TOTP code
          match verifyTOTPCode L E totpSettings user.id (totpCode.getD "") now with
          | (.error e, st) => (.error e, st)
          | (.ok totpResult, st) =>
            if !totpResult.success then
              (.ok { status := 401, success := some totpResult.success, error := totpResult.error,
                     message := totpResult.message, requiresTOTP := none, token := none,
                     user := none, totpEnabled := none }, st)
            else
              loginIssue L E st user totpRequired now
      else
        loginIssue L E totpSettings user totpRequired now

/-- The login handler: the `try` block, with an escaping exception answered by status 500. -/
def login (L : Lib) (E : Env) (users : UserStore) (totpSettings : TotpStore)
    (email password totpCode : Option String) (now : Nat) : LoginResponse × TotpStore :=
  match loginTry L E users totpSettings email password totpCode now with
  | (.ok res, st) => (res, st)
  | (.error _, st) => (errorResponse 500 (some "Login failed"), st)

/-! ## Reachable settings stores -/

/-- Settings stores reachable from the empty store by calls of `setupTOTP`,
`verifyTOTPCode` and `disableTOTP`, with arbitrary arguments and arbitrary
outcomes of the random source and the clock. -/
inductive Reachable (L : Lib) (E : Env) : TotpStore → Prop
  | empty : Reachable L E []
  | setup (st : TotpStore) (userId userEmail : String) (d : SetupDraw) :
      Reachable L E st → Reachable L E (setupTOTP L E st userId userEmail d).2
  | verify (st : TotpStore) (userId code : String) (now : Nat) :
      Reachable L E st → Reachable L E (verifyTOTPCode L E st userId code now).2
  | disable (st : TotpStore) (userId : String) :
      Reachable L E st → Reachable L E (disableTOTP st userId).2

/-- Every enabled record of the store is verified. -/
def EnabledImpliesVerified (st : TotpStore) : Prop :=
  ∀ kv ∈ st, kv.2.is_enabled = true → kv.2.is_verified = true

/-! ## A concrete library instance for evaluating the code on examples -/

/-- A toy instance of the library interface: digests are 64 characters for
inputs of up to 57 characters, hex decoding is that of node, the cipher tags
its input, the only accepted one-time code is `123456`, and the enrollment
code of an address longer than 40 characters is too large to render. -/
def demoLib : Lib where
  sha256Hex s := String.mk (("sha256:" ++ s).toList ++ List.replicate (57 - s.length) '0')
  sha256 _ := List.replicate 32 7
  hexDecode s := bufferFromHex s.toList
  cipherHex _ s := .ok ("c0ffee" ++ s)
  decipherUtf8 _ c := .ok (c.drop 6)
  base64Encode s := "b64" ++ s
  base64Decode s := .ok (s.drop 3)
  generateSecret name seed :=
    .ok { base32 := if seed = 0 then "JBSWY3DPEHPK3PXP" else "KRUGS4ZANFZSAYJA"
          otpauth_url := "otpauth://totp/" ++ name }
  totp _ _ := .ok "123456"
  totpVerify _ token _ _ := .ok (decide (token = "123456"))
  toDataURL url :=
    if url.length ≤ 66 then .ok ("data:image/png;base64," ++ url)
    else .error "The amount of data is too big to be stored in a QR Code"
  bcryptHash pw _ salt := .ok ("$2a$10$" ++ toString salt ++ pw)
  bcryptCompare pw h := .ok (decide (h.drop 8 = pw))
  jwtSign id email key _ :=
    match key with
    | none => .error "secretOrPrivateKey must have a value"
    | some k => .ok (id ++ "." ++ email ++ "." ++ k)

/-- A configuration with both keys set. -/
def demoEnv : Env :=
  { JWT_SECRET := some "jwt-signing-key", ENCRYPTION_KEY := some "pass-phrase" }

/-- Outcome of the random source and clock for a first enrollment. -/
def demoDraw : SetupDraw :=
  { seed := 0, iv := "000102030405060708090a0b0c0d0e0f", rand := fun i => i, now := 1000 }

/-- Outcome of the random source and clock for a second enrollment. -/
def demoDraw2 : SetupDraw :=
  { seed := 1, iv := "101112131415161718191a1b1c1d1e1f", rand := fun i => 16 * i + 10, now := 2000 }

/-- The store after account `u1` has enrolled. -/
def pendingStore : TotpStore :=
  (setupTOTP demoLib demoEnv [] "u1" "a@b.c" demoDraw).2

/-- The store after account `u1` has enrolled and confirmed the code `123456`. -/
def activeStore : TotpStore :=
  (verifyTOTPCode demoLib demoEnv pendingStore "u1" "123456" 1030).2

/-- The record written by step 4 of `setupTOTP` for a generated secret. -/
def freshRecord (L : Lib) (E : Env) (d : SetupDraw) (base32 : String) : TotpSettings :=
  { totp_secret_encrypted := encryptSecret L E d.iv base32
    is_enabled := false
    is_verified := false
    backup_codes_hash := (generateBackupCodes d.rand).map L.sha256Hex
    failed_attempts := 0
    locked_until := none
    created_at := d.now }

/-- An address whose enrollment code the toy library cannot render. -/
def longEmail : String := "a-very-long-address-that-does-not-fit@example.org"

/-- Outcome of the random source and clock for registering the first account. -/
def demoRegisterDraw : RegisterDraw :=
  { salt := 7, uuid := "u1", now := 900 }

/-- The account store after `alice@example.com` has registered. -/
def aliceUsers : UserStore :=
  (registerUser demoLib [] (some "alice@example.com") (some "pw123456") demoRegisterDraw).2

/-- A configuration without the master encryption key. -/
def noKeyEnv : Env :=
  { JWT_SECRET := some "jwt-signing-key", ENCRYPTION_KEY := none }

/-- A configuration without the token signing key. -/
def noJwtEnv : Env :=
  { JWT_SECRET := none, ENCRYPTION_KEY := some "pass-phrase" }

/-- A configuration whose master key is 64 hexadecimal digits. -/
def hexKeyEnv : Env :=
  { JWT_SECRET := some "jwt-signing-key"
    ENCRYPTION_KEY := some "000102030405060708090a0b0c0d0e0f101112131415161718191a1b1c1d1e1f" }

/-- A configuration whose master key is 64 characters that are not hexadecimal digits. -/
def badHexKeyEnv : Env :=
  { JWT_SECRET := some "jwt-signing-key"
    ENCRYPTION_KEY := some "zzzzzzzzzzzzzzzzzzzzzzzzzzzzzzzzzzzzzzzzzzzzzzzzzzzzzzzzzzzzzzzz" }

/-- A six-digit code that changes with the time step. -/
def stepCode (c : Nat) : String :=
  let n := (c * 7919 + 104729) % 1000000
  String.mk [Char.ofNat (48 + n / 100000 % 10), Char.ofNat (48 + n / 10000 % 10),
             Char.ofNat (48 + n / 1000 % 10), Char.ofNat (48 + n / 100 % 10),
             Char.ofNat (48 + n / 10 % 10), Char.ofNat (48 + n % 10)]

/-- The toy library with one-time codes that depend on the 30-second step and a
verification that compares against every step of the two-sided window. -/
def stepLib : Lib :=
  { demoLib with
    totp := fun _ t => .ok (stepCode (t / 30))
    totpVerify := fun _ token w t =>
      .ok ((List.range (2 * w + 1)).any (fun j => decide (stepCode (t / 30 + j - w) = token))) }

/-- The store after account `u1` has enrolled, with `stepLib` as the library. -/
def stepStore : TotpStore :=
  (setupTOTP stepLib demoEnv [] "u1" "a@b.c" demoDraw).2

/-- The code of one backup-code draw: `randomBytes(4).toString("hex").toUpperCase()`. -/
def backupCode (w : Nat) : String :=
  String.mk ((hexOfBytes (bytes4 w)).map Char.toUpper)

/-- The toy library with a decipher that throws on input the toy cipher cannot
have produced. -/
def strictLib : Lib :=
  { demoLib with
    decipherUtf8 := fun _ c =>
      if c.take 6 = "c0ffee" then .ok (c.drop 6) else .error "bad decrypt" }

/-! ## Lemmas on `JsMap` -/

namespace JsMap

theorem get_set_self {α : Type} (m : JsMap α) (k : String) (v : α) :
    get (set m k v) k = some v := by
  induction m with
  | nil => simp [set, get]
  | cons hd tl ih =>
    obtain ⟨k0, v0⟩ := hd
    by_cases h : k0 = k
    · simp [set, get, h]
    · simp [set, get, h, ih]

theorem get_set_of_ne {α : Type} (m : JsMap α) (k k1 : String) (v : α) (hne : k1 ≠ k) :
    get (set m k v) k1 = get m k1 := by
  induction m with
  | nil => simp [set, get, Ne.symm hne]
  | cons hd tl ih =>
    obtain ⟨k0, v0⟩ := hd
    by_cases h : k0 = k
    · subst h
      simp [set, get, Ne.symm hne]
    · simp only [set, h, if_false, get, ih]

theorem get_delete_self {α : Type} (m : JsMap α) (k : String) :
    get (delete m k) k = none := by
  induction m with
  | nil => simp [delete, get]
  | cons hd tl ih =>
    obtain ⟨k0, v0⟩ := hd
    by_cases h : k0 = k
    · simpa [delete, List.filter_cons, h] using ih
    · simpa [delete, List.filter_cons, h, get] using ih

theorem get_delete_of_ne {α : Type} (m : JsMap α) (k k1 : String) (hne : k1 ≠ k) :
    get (delete m k) k1 = get m k1 := by
  induction m with
  | nil => simp [delete, get]
  | cons hd tl ih =>
    obtain ⟨k0, v0⟩ := hd
    by_cases h : k0 = k
    · subst h
      simpa [delete, List.filter_cons, get, Ne.symm hne] using ih
    · by_cases h1 : k0 = k1
      · subst h1
        simp [delete, List.filter_cons, hne, get]
      · simpa [delete, List.filter_cons, h, get, h1] using ih

theorem set_of_get_none {α : Type} (m : JsMap α) (k : String) (v : α) (h : get m k = none) :
    set m k v = m ++ [(k, v)] := by
  induction m with
  | nil => simp [set]
  | cons hd tl ih =>
    obtain ⟨k0, v0⟩ := hd
    by_cases h0 : k0 = k
    · simp [get, h0] at h
    · simp only [get, h0, if_false] at h
      simp [set, h0, ih h]

theorem mem_of_get {α : Type} (m : JsMap α) (k : String) (v : α) (h : get m k = some v) :
    (k, v) ∈ m := by
  induction m with
  | nil => simp [get] at h
  | cons hd tl ih =>
    obtain ⟨k0, v0⟩ := hd
    by_cases h0 : k0 = k
    · simp only [get, h0, if_true, Option.some.injEq] at h
      simp [h0, h]
    · simp only [get, h0, if_false] at h
      exact List.mem_cons_of_mem _ (ih h)

theorem mem_set {α : Type} (m : JsMap α) (k : String) (v : α) (kv : String × α)
    (h : kv ∈ set m k v) : kv = (k, v) ∨ kv ∈ m := by
  induction m with
  | nil => simpa [set] using h
  | cons hd tl ih =>
    obtain ⟨k0, v0⟩ := hd
    by_cases h0 : k0 = k
    · simp only [set, h0, if_true, List.mem_cons] at h
      rcases h with h | h
      · exact Or.inl h
      · exact Or.inr (List.mem_cons_of_mem _ h)
    · simp only [set, h0, if_false, List.mem_cons] at h
      rcases h with h | h
      · exact Or.inr (by simp [h])
      · rcases ih h with h1 | h1
        · exact Or.inl h1
        · exact Or.inr (List.mem_cons_of_mem _ h1)

end JsMap

/-! ## Lemmas on the service functions -/

theorem enabledImpliesVerified_set (st : TotpStore) (k : String) (r : TotpSettings)
    (hst : EnabledImpliesVerified st) (hr : r.is_enabled = true → r.is_verified = true) :
    EnabledImpliesVerified (JsMap.set st k r) := by
  intro kv hkv
  rcases JsMap.mem_set st k r kv hkv with h | h
  · subst h
    exact hr
  · exact hst kv h

theorem enabledImpliesVerified_setupTOTP (L : Lib) (E : Env) (st : TotpStore)
    (userId userEmail : String) (d : SetupDraw) (hst : EnabledImpliesVerified st) :
    EnabledImpliesVerified (setupTOTP L E st userId userEmail d).2 := by
  unfold setupTOTP
  cases L.generateSecret ("2FA Demo (" ++ userEmail ++ ")") d.seed with
  | error e => exact hst
  | ok secret =>
    have hset := enabledImpliesVerified_set st userId
      { totp_secret_encrypted := encryptSecret L E d.iv secret.base32
        is_enabled := false
        is_verified := false
        backup_codes_hash := (generateBackupCodes d.rand).map L.sha256Hex
        failed_attempts := 0
        locked_until := none
        created_at := d.now } hst (by simp)
    cases hq : L.toDataURL secret.otpauth_url <;> simpa [hq] using hset

theorem enabledImpliesVerified_verifyTOTPCode (L : Lib) (E : Env) (st : TotpStore)
    (userId code : String) (now : Nat) (hst : EnabledImpliesVerified st) :
    EnabledImpliesVerified (verifyTOTPCode L E st userId code now).2 := by
  unfold verifyTOTPCode
  cases JsMap.get st userId with
  | none => exact hst
  | some r =>
    simp only
    cases decryptSecret L E r.totp_secret_encrypted with
    | error e => exact hst
    | ok sec =>
      simp only
      cases L.totp sec now with
      | error e => exact hst
      | ok c =>
        simp only
        cases L.totpVerify sec code 5 now with
        | error e => exact hst
        | ok b =>
          cases b with
          | false => exact hst
          | true => exact enabledImpliesVerified_set st userId _ hst (by simp)

theorem enabledImpliesVerified_disableTOTP (st : TotpStore) (userId : String)
    (hst : EnabledImpliesVerified st) :
    EnabledImpliesVerified (disableTOTP st userId).2 := by
  intro kv hkv
  exact hst kv (List.mem_of_mem_filter hkv)

theorem enabledImpliesVerified_of_reachable (L : Lib) (E : Env) (st : TotpStore)
    (h : Reachable L E st) : EnabledImpliesVerified st := by
  induction h with
  | empty => intro kv hkv; simp at hkv
  | setup st userId userEmail d _ ih =>
    exact enabledImpliesVerified_setupTOTP L E st userId userEmail d ih
  | verify st userId code now _ ih =>
    exact enabledImpliesVerified_verifyTOTPCode L E st userId code now ih
  | disable st userId _ ih => exact enabledImpliesVerified_disableTOTP st userId ih

theorem setupTOTP_of_success (L : Lib) (E : Env) (st : TotpStore)
    (userId userEmail : String) (d : SetupDraw)
    (hs : (setupTOTP L E st userId userEmail d).1.success = true) :
    ∃ secret, L.generateSecret ("2FA Demo (" ++ userEmail ++ ")") d.seed = .ok secret ∧
      (setupTOTP L E st userId userEmail d).1.manualEntryKey = some secret.base32 ∧
      (setupTOTP L E st userId userEmail d).1.backupCodes = some (generateBackupCodes d.rand) ∧
      (setupTOTP L E st userId userEmail d).2 =
        JsMap.set st userId (freshRecord L E d secret.base32) := by
  unfold setupTOTP at hs ⊢
  cases hg : L.generateSecret ("2FA Demo (" ++ userEmail ++ ")") d.seed with
  | error e => simp [hg, setupFailure] at hs
  | ok secret =>
    cases hq : L.toDataURL secret.otpauth_url with
    | error e => simp [hg, hq, setupFailure] at hs
    | ok qr => exact ⟨secret, rfl, by simp [hq], by simp [hq], by simp [hq, freshRecord]⟩

theorem verifyTOTPCode_cases (L : Lib) (E : Env) (st : TotpStore) (userId code : String)
    (now : Nat) (res : ServiceResult)
    (hres : (verifyTOTPCode L E st userId code now).1 = .ok res) :
    (JsMap.get st userId = none ∧
        res = { success := false, error := some "TOTP not set up", message := none } ∧
        (verifyTOTPCode L E st userId code now).2 = st) ∨
    (∃ r, JsMap.get st userId = some r ∧
        res = { success := false, error := some "Invalid code", message := none } ∧
        (verifyTOTPCode L E st userId code now).2 = st) ∨
    (∃ r, JsMap.get st userId = some r ∧
        res = { success := true, error := none, message := some "TOTP verified" } ∧
        (verifyTOTPCode L E st userId code now).2 =
          JsMap.set st userId
            { r with is_verified := true, is_enabled := true, failed_attempts := 0 }) := by
  unfold verifyTOTPCode at hres ⊢
  cases hg : JsMap.get st userId with
  | none =>
    simp only [hg] at hres
    exact Or.inl ⟨rfl, (Except.ok.inj hres).symm, rfl⟩
  | some r =>
    simp only [hg] at hres ⊢
    cases hd : decryptSecret L E r.totp_secret_encrypted with
    | error e => simp [hd] at hres
    | ok sec =>
      simp only [hd] at hres ⊢
      cases ht : L.totp sec now with
      | error e => simp [ht] at hres
      | ok c =>
        simp only [ht] at hres ⊢
        cases hv : L.totpVerify sec code 5 now with
        | error e => simp [hv] at hres
        | ok b =>
          cases b with
          | false =>
            simp only [hv] at hres
            exact Or.inr (Or.inl ⟨r, rfl, (Except.ok.inj hres).symm, rfl⟩)
          | true =>
            simp only [hv] at hres
            exact Or.inr (Or.inr ⟨r, rfl, (Except.ok.inj hres).symm, rfl⟩)

theorem isTOTPRequired_eq_true_iff_aux (st : TotpStore) (userId : String) :
    isTOTPRequired st userId = some true ↔
      ∃ r, JsMap.get st userId = some r ∧ r.is_enabled = true ∧ r.is_verified = true := by
  unfold isTOTPRequired
  cases JsMap.get st userId with
  | none => simp
  | some r =>
    cases he : r.is_enabled <;> cases hv : r.is_verified <;> simp [he, hv]

theorem isTOTPRequired_set (st : TotpStore) (userId : String) (r : TotpSettings) :
    isTOTPRequired (JsMap.set st userId r) userId =
      some (if r.is_enabled then r.is_verified else r.is_enabled) := by
  unfold isTOTPRequired
  rw [JsMap.get_set_self]
  cases h : r.is_enabled <;> simp [h]

theorem truthy_eq_true_iff (x : Option String) :
    truthy x = true ↔ ∃ s, x = some s ∧ s ≠ "" := by
  cases x with
  | none => simp [truthy]
  | some s => simp [truthy]

theorem loginIssue_fst (L : Lib) (E : Env) (st : TotpStore) (user : PublicUser)
    (req : Option Bool) (now : Nat) (resp : LoginResponse)
    (h : (loginIssue L E st user req now).1 = .ok resp) : resp.token.isSome = true := by
  unfold loginIssue at h
  cases hg : generateToken L E user now with
  | error e => simp [hg] at h
  | ok token =>
    simp only [hg] at h
    rw [← Except.ok.inj h]
    rfl

/-! ## Lemmas on envelopes -/

theorem splitColonChars_of_no_colon (l : List Char)
    (h : l.any (fun c => decide (c = ':')) = false) : splitColonChars l = [l] := by
  induction l with
  | nil => rfl
  | cons c cs ih =>
    simp only [List.any_cons, Bool.or_eq_false_iff, decide_eq_false_iff_not] at h
    simp [splitColonChars, h.1, ih h.2]

theorem splitColonChars_append_colon (a b : List Char)
    (h : a.any (fun c => decide (c = ':')) = false) :
    splitColonChars (a ++ ':' :: b) = a :: splitColonChars b := by
  induction a with
  | nil => simp [splitColonChars]
  | cons c cs ih =>
    simp only [List.any_cons, Bool.or_eq_false_iff, decide_eq_false_iff_not] at h
    simp [splitColonChars, h.1, ih h.2]

theorem includesColon_envelope (iv c : String) : includesColon (iv ++ ":" ++ c) = true := by
  simp [includesColon, String.toList]

theorem splitColon_envelope (iv c : String) (hiv : includesColon iv = false)
    (hc : includesColon c = false) : splitColon (iv ++ ":" ++ c) = [iv, c] := by
  unfold includesColon at hiv hc
  have h1 : (iv ++ ":" ++ c).toList = iv.toList ++ ':' :: c.toList := by
    simp [String.toList]
  unfold splitColon
  rw [h1, splitColonChars_append_colon _ _ hiv, splitColonChars_of_no_colon _ hc]
  simp [String.toList]

theorem decryptSecret_of_no_colon (L : Lib) (E : Env) (enc s : String)
    (hc : includesColon enc = false) (hd : L.base64Decode enc = .ok s) :
    decryptSecret L E enc = .ok s := by
  simp [decryptSecret, decryptSecretTry, hc, hd]

theorem authenticateUser_absent (L : Lib) (users : UserStore) (email password : String)
    (he : email ≠ "") (hp : password ≠ "") (h : JsMap.get users email = none) :
    authenticateUser L users (some email) (some password) = authFailure "Invalid credentials" := by
  simp [authenticateUser, truthy, he, hp, h]

theorem authenticateUser_mismatch (L : Lib) (users : UserStore) (email password : String)
    (u : User) (he : email ≠ "") (hp : password ≠ "") (h : JsMap.get users email = some u)
    (hm : L.bcryptCompare password u.password = .ok false) :
    authenticateUser L users (some email) (some password) = authFailure "Invalid credentials" := by
  simp [authenticateUser, truthy, he, hp, h, hm]

theorem login_of_auth_failure (L : Lib) (E : Env) (users : UserStore) (st : TotpStore)
    (email password code : Option String) (now : Nat) (msg : String)
    (h : authenticateUser L users email password = authFailure msg) :
    login L E users st email password code now = (errorResponse 401 (some msg), st) := by
  simp [login, loginTry, h, authFailure]

/-! ## Lemmas on backup codes -/

theorem hexDigit_upper_mem :
    ∀ n, n < 16 → (hexDigit n).toUpper ∈ "0123456789ABCDEF".toList := by
  decide

theorem hexDigit_upper_inj :
    ∀ x, x < 16 → ∀ y, y < 16 → (hexDigit x).toUpper = (hexDigit y).toUpper → x = y := by
  decide

theorem backupCode_toList (w : Nat) :
    (backupCode w).toList =
      [(hexDigit (w / 16777216 % 256 % 256 / 16)).toUpper,
       (hexDigit (w / 16777216 % 256 % 16)).toUpper,
       (hexDigit (w / 65536 % 256 % 256 / 16)).toUpper,
       (hexDigit (w / 65536 % 256 % 16)).toUpper,
       (hexDigit (w / 256 % 256 % 256 / 16)).toUpper,
       (hexDigit (w / 256 % 256 % 16)).toUpper,
       (hexDigit (w % 256 % 256 / 16)).toUpper,
       (hexDigit (w % 256 % 16)).toUpper] := by
  simp [backupCode, hexOfBytes, bytes4, String.toList]

theorem generateBackupCodes_eq_map (rand : Nat → Nat) (n : Nat) :
    generateBackupCodes rand n = (List.range n).map (fun i => backupCode (rand i)) := rfl

theorem backupCode_shape (w : Nat) :
    (backupCode w).length = 8 ∧ ∀ ch ∈ (backupCode w).toList, ch ∈ "0123456789ABCDEF".toList := by
  constructor
  · rw [String.length, ← String.toList, backupCode_toList]
    rfl
  · intro ch hch
    rw [backupCode_toList] at hch
    simp only [List.mem_cons, List.mem_singleton, List.not_mem_nil, or_false] at hch
    rcases hch with h | h | h | h | h | h | h | h <;> rw [h] <;>
      exact hexDigit_upper_mem _ (by omega)

theorem byte_eq_of_nibbles (x y : Nat) (hhi : x % 256 / 16 = y % 256 / 16)
    (hlo : x % 16 = y % 16) : x % 256 = y % 256 := by
  omega

theorem eq_mod_of_bytes (a b : Nat)
    (h3 : a / 16777216 % 256 % 256 = b / 16777216 % 256 % 256)
    (h2 : a / 65536 % 256 % 256 = b / 65536 % 256 % 256)
    (h1 : a / 256 % 256 % 256 = b / 256 % 256 % 256)
    (h0 : a % 256 % 256 = b % 256 % 256) :
    a % 4294967296 = b % 4294967296 := by
  omega

theorem backupCode_eq_iff (a b : Nat) :
    backupCode a = backupCode b ↔ a % 4294967296 = b % 4294967296 := by
  constructor
  · intro h
    have hl : (backupCode a).toList = (backupCode b).toList := by rw [h]
    rw [backupCode_toList, backupCode_toList] at hl
    simp only [List.cons.injEq, and_true] at hl
    obtain ⟨h0, h1, h2, h3, h4, h5, h6, h7⟩ := hl
    have e0 := hexDigit_upper_inj _ (by omega) _ (by omega) h0
    have e1 := hexDigit_upper_inj _ (by omega) _ (by omega) h1
    have e2 := hexDigit_upper_inj _ (by omega) _ (by omega) h2
    have e3 := hexDigit_upper_inj _ (by omega) _ (by omega) h3
    have e4 := hexDigit_upper_inj _ (by omega) _ (by omega) h4
    have e5 := hexDigit_upper_inj _ (by omega) _ (by omega) h5
    have e6 := hexDigit_upper_inj _ (by omega) _ (by omega) h6
    have e7 := hexDigit_upper_inj _ (by omega) _ (by omega) h7
    exact eq_mod_of_bytes a b (byte_eq_of_nibbles _ _ e0 e1) (byte_eq_of_nibbles _ _ e2 e3)
      (byte_eq_of_nibbles _ _ e4 e5) (byte_eq_of_nibbles _ _ e6 e7)
  · intro h
    have hb : bytes4 a = bytes4 b := by
      simp only [bytes4, List.cons.injEq, and_true]
      refine ⟨?_, ?_, ?_, ?_⟩ <;> omega
    simp [backupCode, hb]

theorem stepLib_window (secret tok : String) (w t1 t2 : Nat)
    (hlo : t1 / 30 ≤ t2 / 30 + w) (hhi : t2 / 30 ≤ t1 / 30 + w)
    (htok : stepLib.totp secret t2 = .ok tok) :
    stepLib.totpVerify secret tok w t1 = .ok true := by
  have e : stepCode (t2 / 30) = tok := Except.ok.inj htok
  have hany : (List.range (2 * w + 1)).any
      (fun j => decide (stepCode (t1 / 30 + j - w) = tok)) = true := by
    rw [List.any_eq_true]
    refine ⟨t2 / 30 + w - t1 / 30, List.mem_range.2 (by omega), ?_⟩
    have hj : t1 / 30 + (t2 / 30 + w - t1 / 30) - w = t2 / 30 := by omega
    rw [hj]
    exact decide_eq_true e
  show Except.ok _ = Except.ok true
  rw [hany]

theorem splitColon_cons (iv c : String) (hiv : includesColon iv = false) :
    splitColon (iv ++ ":" ++ c) = iv :: splitColon c := by
  unfold includesColon at hiv
  have h1 : (iv ++ ":" ++ c).toList = iv.toList ++ ':' :: c.toList := by
    simp [String.toList]
  unfold splitColon
  rw [h1, splitColonChars_append_colon _ _ hiv]
  simp [String.toList]

theorem decryptSecretTry_envelope (L : Lib) (E : Env) (iv c : String)
    (hiv : includesColon iv = false) :
    decryptSecretTry L E (iv ++ ":" ++ c) =
      (match deriveKey L E with
       | .error e => .error e
       | .ok key =>
         match splitColon c with
         | [encrypted] => L.decipherUtf8 key encrypted
         | _ => .error "Invalid encrypted data format") := by
  unfold decryptSecretTry
  rw [includesColon_envelope, splitColon_cons iv c hiv]
  cases deriveKey L E with
  | error e => simp
  | ok key =>
    cases splitColon c with
    | nil => simp
    | cons x rest =>
      cases rest with
      | nil => simp
      | cons y rest2 => simp

/-! ## Claims -/

/-- C1. For every store and every account id, `isTOTPRequired` returns `true`
exactly when a settings record exists for the id and both its `is_enabled` and
`is_verified` flags are true. -/
theorem isTOTPRequired_eq_true_iff (st : TotpStore) (userId : String) :
    isTOTPRequired st userId = some true ↔
      ∃ r, JsMap.get st userId = some r ∧ r.is_enabled = true ∧ r.is_verified = true := by
  unfold isTOTPRequired
  cases JsMap.get st userId with
  | none => simp
  | some r =>
    cases he : r.is_enabled <;> cases hv : r.is_verified <;> simp [he, hv]

/-- C2. In every store reachable from the empty store by `setupTOTP`,
`verifyTOTPCode` and `disableTOTP` calls, a settings record with
`is_enabled = true` also has `is_verified = true`. -/
theorem reachable_enabled_implies_verified (L : Lib) (E : Env) (st : TotpStore)
    (h : Reachable L E st) (userId : String) (r : TotpSettings)
    (hget : JsMap.get st userId = some r) (hen : r.is_enabled = true) :
    r.is_verified = true := by
  exact enabledImpliesVerified_of_reachable L E st h (userId, r)
    (JsMap.mem_of_get st userId r hget) hen

/-- C2 witness: the store after account `u1` enrolled and confirmed a code is
reachable, holds an enabled record for `u1`, and that record is verified. -/
theorem reachable_enabled_implies_verified_witness :
    Reachable demoLib demoEnv activeStore ∧
      (∃ r, JsMap.get activeStore "u1" = some r ∧ r.is_enabled = true ∧ r.is_verified = true) :=
  have hr : Reachable demoLib demoEnv activeStore :=
    Reachable.verify _ "u1" "123456" 1030 (Reachable.setup _ "u1" "a@b.c" demoDraw Reachable.empty)
  ⟨hr, (JsMap.get activeStore "u1").get (by decide), by simp,
    by decide,
    reachable_enabled_implies_verified demoLib demoEnv activeStore hr "u1" _ (by simp) (by decide)⟩

/-- C4 counterexample. Account `u1` is Active (enabled and verified); a
`setupTOTP` call for it succeeds and replaces the record: the stored secret is
a different one and both flags are false afterwards. -/
theorem setupTOTP_active_record_replaced :
    JsMap.get activeStore "u1" = some
      { totp_secret_encrypted := "000102030405060708090a0b0c0d0e0f:c0ffeeJBSWY3DPEHPK3PXP"
        is_enabled := true
        is_verified := true
        backup_codes_hash := (generateBackupCodes demoDraw.rand).map demoLib.sha256Hex
        failed_attempts := 0
        locked_until := none
        created_at := 1000 } ∧
    (setupTOTP demoLib demoEnv activeStore "u1" "a@b.c" demoDraw2).1.success = true ∧
    JsMap.get (setupTOTP demoLib demoEnv activeStore "u1" "a@b.c" demoDraw2).2 "u1" = some
      { totp_secret_encrypted := "101112131415161718191a1b1c1d1e1f:c0ffeeKRUGS4ZANFZSAYJA"
        is_enabled := false
        is_verified := false
        backup_codes_hash := (generateBackupCodes demoDraw2.rand).map demoLib.sha256Hex
        failed_attempts := 0
        locked_until := none
        created_at := 2000 } := by
  decide

/-- C4 (amended). `setupTOTP` has no state guard: for an account whose record is
Active, a `setupTOTP` call that reports success replaces the record by a fresh
one, holding the encryption of the newly generated secret (the returned manual
entry key), the hashes of the new backup codes and both flags false; the
previous record is gone, and the account, for which `isTOTPRequired` was true,
no longer requires the second factor. -/
theorem setupTOTP_success_replaces_active_record (L : Lib) (E : Env) (st : TotpStore)
    (userId userEmail : String) (d : SetupDraw) (r : TotpSettings)
    (hget : JsMap.get st userId = some r)
    (hen : r.is_enabled = true) (hver : r.is_verified = true)
    (hs : (setupTOTP L E st userId userEmail d).1.success = true) :
    ∃ key, (setupTOTP L E st userId userEmail d).1.manualEntryKey = some key ∧
      JsMap.get (setupTOTP L E st userId userEmail d).2 userId =
        some { totp_secret_encrypted := encryptSecret L E d.iv key
               is_enabled := false
               is_verified := false
               backup_codes_hash := (generateBackupCodes d.rand).map L.sha256Hex
               failed_attempts := 0
               locked_until := none
               created_at := d.now } ∧
      JsMap.get (setupTOTP L E st userId userEmail d).2 userId ≠ JsMap.get st userId ∧
      isTOTPRequired st userId = some true ∧
      isTOTPRequired (setupTOTP L E st userId userEmail d).2 userId = some false := by
  obtain ⟨secret, _, hkey, _, hst⟩ := setupTOTP_of_success L E st userId userEmail d hs
  refine ⟨secret.base32, hkey, ?_, ?_, ?_, ?_⟩
  · rw [hst, JsMap.get_set_self]
    rfl
  · rw [hst, JsMap.get_set_self, hget]
    intro h
    have h1 := congrArg TotpSettings.is_enabled (Option.some.inj h)
    rw [hen] at h1
    simp [freshRecord] at h1
  · exact (isTOTPRequired_eq_true_iff_aux st userId).2 ⟨r, hget, hen, hver⟩
  · rw [hst, isTOTPRequired_set]
    simp [freshRecord]

/-- C4 (amended) witness: the Active account `u1` of `activeStore` enrolling again. -/
theorem setupTOTP_success_replaces_active_record_witness :
    ∃ key, (setupTOTP demoLib demoEnv activeStore "u1" "a@b.c" demoDraw2).1.manualEntryKey
        = some key ∧
      JsMap.get (setupTOTP demoLib demoEnv activeStore "u1" "a@b.c" demoDraw2).2 "u1" =
        some { totp_secret_encrypted := encryptSecret demoLib demoEnv demoDraw2.iv key
               is_enabled := false
               is_verified := false
               backup_codes_hash := (generateBackupCodes demoDraw2.rand).map demoLib.sha256Hex
               failed_attempts := 0
               locked_until := none
               created_at := demoDraw2.now } ∧
      JsMap.get (setupTOTP demoLib demoEnv activeStore "u1" "a@b.c" demoDraw2).2 "u1" ≠
        JsMap.get activeStore "u1" ∧
      isTOTPRequired activeStore "u1" = some true ∧
      isTOTPRequired (setupTOTP demoLib demoEnv activeStore "u1" "a@b.c" demoDraw2).2 "u1"
        = some false :=
  setupTOTP_success_replaces_active_record demoLib demoEnv activeStore "u1" "a@b.c" demoDraw2
    ((JsMap.get activeStore "u1").get (by decide)) (by simp) (by decide) (by decide) (by decide)

/-- C5, the code at the failing input. Rendering the enrollment code fails for
the long address, after step 4 has already written the record: `setupTOTP`
returns its failure object, yet the empty store now holds a record for `u2`,
and the Active record of `u1` has been replaced by an unverified one. -/
theorem setupTOTP_failure_keeps_written_record :
    (setupTOTP demoLib demoEnv [] "u2" longEmail demoDraw).1 = setupFailure ∧
    (setupTOTP demoLib demoEnv [] "u2" longEmail demoDraw).2 =
      [("u2", freshRecord demoLib demoEnv demoDraw "JBSWY3DPEHPK3PXP")] ∧
    isTOTPRequired activeStore "u1" = some true ∧
    (setupTOTP demoLib demoEnv activeStore "u1" longEmail demoDraw2).1 = setupFailure ∧
    (setupTOTP demoLib demoEnv activeStore "u1" longEmail demoDraw2).2 =
      [("u1", freshRecord demoLib demoEnv demoDraw2 "KRUGS4ZANFZSAYJA")] ∧
    isTOTPRequired (setupTOTP demoLib demoEnv activeStore "u1" longEmail demoDraw2).2 "u1"
      = some false := by
  decide

/-- C6. After a `setupTOTP` call that returns success, the account has a
settings record with `is_enabled = false`, `is_verified = false` and
`failed_attempts = 0`, and `isTOTPRequired` for the account is not `true`,
whatever the store held before the call. -/
theorem setupTOTP_success_record_pending (L : Lib) (E : Env) (st : TotpStore)
    (userId userEmail : String) (d : SetupDraw)
    (hs : (setupTOTP L E st userId userEmail d).1.success = true) :
    (∃ r, JsMap.get (setupTOTP L E st userId userEmail d).2 userId = some r ∧
      r.is_enabled = false ∧ r.is_verified = false ∧ r.failed_attempts = 0) ∧
    isTOTPRequired (setupTOTP L E st userId userEmail d).2 userId ≠ some true := by
  obtain ⟨secret, _, _, _, hst⟩ := setupTOTP_of_success L E st userId userEmail d hs
  rw [hst]
  refine ⟨⟨_, JsMap.get_set_self _ _ _, rfl, rfl, rfl⟩, ?_⟩
  rw [isTOTPRequired_set]
  simp [freshRecord]

/-- C6 witness: enrolling `u1` on the empty store and on the store where `u1` is Active. -/
theorem setupTOTP_success_record_pending_witness :
    ((∃ r, JsMap.get (setupTOTP demoLib demoEnv [] "u1" "a@b.c" demoDraw).2 "u1" = some r ∧
        r.is_enabled = false ∧ r.is_verified = false ∧ r.failed_attempts = 0) ∧
      isTOTPRequired (setupTOTP demoLib demoEnv [] "u1" "a@b.c" demoDraw).2 "u1" ≠ some true) ∧
    ((∃ r, JsMap.get (setupTOTP demoLib demoEnv activeStore "u1" "a@b.c" demoDraw2).2 "u1"
          = some r ∧
        r.is_enabled = false ∧ r.is_verified = false ∧ r.failed_attempts = 0) ∧
      isTOTPRequired (setupTOTP demoLib demoEnv activeStore "u1" "a@b.c" demoDraw2).2 "u1"
        ≠ some true) :=
  ⟨setupTOTP_success_record_pending demoLib demoEnv [] "u1" "a@b.c" demoDraw (by decide),
   setupTOTP_success_record_pending demoLib demoEnv activeStore "u1" "a@b.c" demoDraw2
     (by decide)⟩

/-- C7. For an account with a settings record, when `verifyTOTPCode` reports
success the record afterwards has `is_verified = true`, `is_enabled = true` and
`failed_attempts = 0`, its encrypted secret and backup-code hashes (and the
remaining fields) are unchanged, and `isTOTPRequired` for the account is true. -/
theorem verifyTOTPCode_success_activates (L : Lib) (E : Env) (st : TotpStore)
    (userId code : String) (now : Nat) (r : TotpSettings) (res : ServiceResult)
    (hget : JsMap.get st userId = some r)
    (hres : (verifyTOTPCode L E st userId code now).1 = .ok res)
    (hs : res.success = true) :
    (∃ r1, JsMap.get (verifyTOTPCode L E st userId code now).2 userId = some r1 ∧
      r1.is_verified = true ∧ r1.is_enabled = true ∧ r1.failed_attempts = 0 ∧
      r1.totp_secret_encrypted = r.totp_secret_encrypted ∧
      r1.backup_codes_hash = r.backup_codes_hash ∧
      r1.locked_until = r.locked_until ∧ r1.created_at = r.created_at) ∧
    isTOTPRequired (verifyTOTPCode L E st userId code now).2 userId = some true := by
  rcases verifyTOTPCode_cases L E st userId code now res hres with
    ⟨_, hr, _⟩ | ⟨_, _, hr, _⟩ | ⟨r0, hg, _, hst⟩
  · rw [hr] at hs
    simp at hs
  · rw [hr] at hs
    simp at hs
  · rw [hget] at hg
    obtain rfl := Option.some.inj hg
    rw [hst]
    refine ⟨⟨_, JsMap.get_set_self _ _ _, rfl, rfl, rfl, rfl, rfl, rfl, rfl⟩, ?_⟩
    rw [isTOTPRequired_set]
    rfl

/-- C7 witness: the pending account `u1` confirming the code `123456`. -/
theorem verifyTOTPCode_success_activates_witness :
    (∃ r1, JsMap.get (verifyTOTPCode demoLib demoEnv pendingStore "u1" "123456" 1030).2 "u1"
        = some r1 ∧
      r1.is_verified = true ∧ r1.is_enabled = true ∧ r1.failed_attempts = 0 ∧
      r1.totp_secret_encrypted = (freshRecord demoLib demoEnv demoDraw
        "JBSWY3DPEHPK3PXP").totp_secret_encrypted ∧
      r1.backup_codes_hash = (freshRecord demoLib demoEnv demoDraw
        "JBSWY3DPEHPK3PXP").backup_codes_hash ∧
      r1.locked_until = (freshRecord demoLib demoEnv demoDraw "JBSWY3DPEHPK3PXP").locked_until ∧
      r1.created_at = (freshRecord demoLib demoEnv demoDraw "JBSWY3DPEHPK3PXP").created_at) ∧
    isTOTPRequired (verifyTOTPCode demoLib demoEnv pendingStore "u1" "123456" 1030).2 "u1"
      = some true :=
  verifyTOTPCode_success_activates demoLib demoEnv pendingStore "u1" "123456" 1030
    (freshRecord demoLib demoEnv demoDraw "JBSWY3DPEHPK3PXP")
    { success := true, error := none, message := some "TOTP verified" }
    (by decide) rfl rfl

/-- C8. `verifyTOTPCode` changes stored state only on success: when it returns
`success: false` the settings store (with `failed_attempts` and `locked_until`
of every record) is what it was before, and the reported error is
`TOTP not set up` exactly when the account has no settings record and
`Invalid code` otherwise. -/
theorem verifyTOTPCode_failure_keeps_store (L : Lib) (E : Env) (st : TotpStore)
    (userId code : String) (now : Nat) (res : ServiceResult)
    (hres : (verifyTOTPCode L E st userId code now).1 = .ok res)
    (hf : res.success = false) :
    (verifyTOTPCode L E st userId code now).2 = st ∧
    (res.error = some "TOTP not set up" ↔ JsMap.get st userId = none) ∧
    (JsMap.get st userId ≠ none → res.error = some "Invalid code") := by
  rcases verifyTOTPCode_cases L E st userId code now res hres with
    ⟨hg, hr, hst⟩ | ⟨r0, hg, hr, hst⟩ | ⟨_, _, hr, _⟩
  · refine ⟨hst, ?_, ?_⟩
    · rw [hr]
      simp [hg]
    · intro h
      exact absurd hg h
  · refine ⟨hst, ?_, ?_⟩
    · rw [hr, hg]
      simp
    · intro _
      rw [hr]
  · rw [hr] at hf
    simp at hf

/-- C8 witness: a wrong code for the Active account `u1`. -/
theorem verifyTOTPCode_failure_keeps_store_witness :
    (verifyTOTPCode demoLib demoEnv activeStore "u1" "000000" 1060).2 = activeStore ∧
    ((some "Invalid code" : Option String) = some "TOTP not set up" ↔
      JsMap.get activeStore "u1" = none) ∧
    (JsMap.get activeStore "u1" ≠ none →
      (some "Invalid code" : Option String) = some "Invalid code") :=
  verifyTOTPCode_failure_keeps_store demoLib demoEnv activeStore "u1" "000000" 1060
    { success := false, error := some "Invalid code", message := none } rfl rfl

/-- C9. For every store and every account, `disableTOTP` reports success and
removes the account's settings record: afterwards `getTOTPStatus` reports
`setupRequired: true` with `enabled` and `verified` false, `verifyTOTPCode`
returns the `TOTP not set up` failure for any code, and the records of other
accounts are unchanged. -/
theorem disableTOTP_removes_record (st : TotpStore) (userId : String) :
    (disableTOTP st userId).1.success = true ∧
    JsMap.get (disableTOTP st userId).2 userId = none ∧
    getTOTPStatus (disableTOTP st userId).2 userId =
      { enabled := false, verified := false, setupRequired := true } ∧
    (∀ (L : Lib) (E : Env) (code : String) (now : Nat),
      verifyTOTPCode L E (disableTOTP st userId).2 userId code now =
        (.ok { success := false, error := some "TOTP not set up", message := none },
         (disableTOTP st userId).2)) ∧
    (∀ other : String, other ≠ userId →
      JsMap.get (disableTOTP st userId).2 other = JsMap.get st other) := by
  have hnone : JsMap.get (disableTOTP st userId).2 userId = none :=
    JsMap.get_delete_self st userId
  refine ⟨rfl, hnone, ?_, ?_, ?_⟩
  · simp [getTOTPStatus, hnone]
  · intro L E code now
    simp [verifyTOTPCode, hnone]
  · intro other hne
    exact JsMap.get_delete_of_ne st userId other hne

/-- C9 witness: disabling the Active account `u1` while `u2` is pending. -/
theorem disableTOTP_removes_record_witness :
    JsMap.get (disableTOTP (setupTOTP demoLib demoEnv activeStore "u2" "x@y.z" demoDraw2).2
      "u1").2 "u2" =
    JsMap.get (setupTOTP demoLib demoEnv activeStore "u2" "x@y.z" demoDraw2).2 "u2" :=
  (disableTOTP_removes_record (setupTOTP demoLib demoEnv activeStore "u2" "x@y.z" demoDraw2).2
    "u1").2.2.2.2 "u2" (by decide)

/-- C10. Assuming password hashing does not fail, `registerUser(email, password)`
fails exactly when the email is empty, the password is empty, or an account
already exists for the email; with both arguments non-empty the failure for
an existing account carries the error `User already exists`, and a
registration for an existing email is rejected whatever the password.  On
every failure the account store is unchanged; on success exactly one new
account is appended, keyed by the email and carrying the returned `userId`,
and registering the same email again is rejected. -/
theorem registerUser_spec (L : Lib) (users : UserStore) (email password : Option String)
    (d : RegisterDraw)
    (hhash : ∃ h, L.bcryptHash (password.getD "") 10 d.salt = .ok h) :
    ((registerUser L users email password d).1.success = false ↔
      (truthy email = false ∨ truthy password = false ∨
        ∃ e, email = some e ∧ JsMap.has users e = true)) ∧
    (truthy email = true → truthy password = true →
      (∃ e, email = some e ∧ JsMap.has users e = true) →
      (registerUser L users email password d).1.error = some "User already exists") ∧
    ((registerUser L users email password d).1.success = false →
      (registerUser L users email password d).2 = users) ∧
    ((registerUser L users email password d).1.success = true →
      ∃ e h, email = some e ∧ JsMap.get users e = none ∧
        (registerUser L users email password d).1.userId = some d.uuid ∧
        (registerUser L users email password d).2 =
          users ++ [(e, { id := d.uuid, email := e, password := h, createdAt := d.now })] ∧
        ∀ (password2 : Option String) (d2 : RegisterDraw),
          (registerUser L (registerUser L users email password d).2 email password2 d2).1.success
            = false ∧
          (truthy password2 = true →
            (registerUser L (registerUser L users email password d).2 email password2 d2).1.error
              = some "User already exists")) := by
  obtain ⟨h, hh⟩ := hhash
  cases email with
  | none => simp [registerUser, truthy, registerFailure]
  | some e =>
    cases password with
    | none => simp [registerUser, truthy, registerFailure]
    | some pw =>
      simp only [Option.getD_some] at hh
      by_cases he : e = ""
      · simp [registerUser, truthy, registerFailure, he]
      · by_cases hp : pw = ""
        · simp [registerUser, truthy, registerFailure, hp]
        · cases hhas : JsMap.has users e with
          | true => simp [registerUser, truthy, registerFailure, he, hp, hhas]
          | false =>
            have hget : JsMap.get users e = none := by
              simpa [JsMap.has] using hhas
            have hset := JsMap.set_of_get_none users e
              { id := d.uuid, email := e, password := h, createdAt := d.now } hget
            have hhas2 : JsMap.has (users ++ [(e,
                ({ id := d.uuid, email := e, password := h, createdAt := d.now } : User))]) e
                = true := by
              rw [← hset]
              simp [JsMap.has, JsMap.get_set_self]
            refine ⟨?_, ?_, ?_, ?_⟩
            · simp [registerUser, truthy, registerFailure, he, hp, hhas, hh]
            · simp [hhas]
            · simp [registerUser, truthy, registerFailure, he, hp, hhas, hh]
            · intro _
              refine ⟨e, h, rfl, hget, ?_, ?_, ?_⟩
              · simp [registerUser, truthy, he, hp, hhas, hh]
              · simp [registerUser, truthy, he, hp, hhas, hh, hset]
              · intro password2 d2
                have hst : (registerUser L users (some e) (some pw) d).2 =
                    users ++ [(e, { id := d.uuid, email := e, password := h,
                                    createdAt := d.now })] := by
                  simp [registerUser, truthy, he, hp, hhas, hh, hset]
                rw [hst]
                cases password2 with
                | none => simp [registerUser, truthy, registerFailure]
                | some p2 =>
                  by_cases hp2 : p2 = ""
                  · simp [registerUser, truthy, registerFailure, hp2]
                  · simp [registerUser, truthy, registerFailure, he, hp2, hhas2]

/-- C10 witness: registering `alice@example.com` on the empty store. -/
theorem registerUser_spec_witness :
    (registerUser demoLib [] (some "alice@example.com") (some "pw123456")
        demoRegisterDraw).1.success = true ∧
    ∃ e h, some "alice@example.com" = some e ∧ JsMap.get ([] : UserStore) e = none ∧
      (registerUser demoLib [] (some "alice@example.com") (some "pw123456")
        demoRegisterDraw).1.userId = some demoRegisterDraw.uuid ∧
      (registerUser demoLib [] (some "alice@example.com") (some "pw123456")
        demoRegisterDraw).2 =
        [] ++ [(e, { id := demoRegisterDraw.uuid, email := e, password := h,
                     createdAt := demoRegisterDraw.now })] ∧
      ∀ (password2 : Option String) (d2 : RegisterDraw),
        (registerUser demoLib (registerUser demoLib [] (some "alice@example.com")
          (some "pw123456") demoRegisterDraw).2 (some "alice@example.com") password2
          d2).1.success = false ∧
        (truthy password2 = true →
          (registerUser demoLib (registerUser demoLib [] (some "alice@example.com")
            (some "pw123456") demoRegisterDraw).2 (some "alice@example.com") password2
            d2).1.error = some "User already exists") :=
  ⟨by decide,
   (registerUser_spec demoLib [] (some "alice@example.com") (some "pw123456") demoRegisterDraw
     ⟨_, rfl⟩).2.2.2 (by decide)⟩

/-- C3. For a login request whose handler completes without an exception (the
`try` block yields the response that `login` sends), the response carries a
session token exactly when the credentials verify and
either `isTOTPRequired` is not true for the account or a code was supplied and
`verifyTOTPCode` succeeded on it; when the credentials verify, the second
factor is required and no code is supplied, the response is the `requiresTOTP`
outcome, which carries no token. -/
theorem login_token_iff (L : Lib) (E : Env) (users : UserStore) (st : TotpStore)
    (email password totpCode : Option String) (now : Nat) (resp : LoginResponse)
    (h : (loginTry L E users st email password totpCode now).1 = .ok resp) :
    (login L E users st email password totpCode now).1 = resp ∧
    (resp.token.isSome = true ↔
      ∃ user, (authenticateUser L users email password).success = true ∧
        (authenticateUser L users email password).user = some user ∧
        (isTOTPRequired st user.id ≠ some true ∨
          (truthy totpCode = true ∧
            ∃ r, (verifyTOTPCode L E st user.id (totpCode.getD "") now).1 = .ok r ∧
              r.success = true))) ∧
    (∀ user, (authenticateUser L users email password).success = true →
      (authenticateUser L users email password).user = some user →
      isTOTPRequired st user.id = some true → truthy totpCode = false →
      resp = requiresTOTPResponse ∧ resp.requiresTOTP = some true ∧ resp.token = none) := by
  refine ⟨?_, ?_⟩
  · unfold login
    rcases hl : loginTry L E users st email password totpCode now with ⟨x, y⟩
    rw [hl] at h
    simp only at h
    rw [h]
  unfold loginTry at h
  generalize authenticateUser L users email password = a at h ⊢
  cases hs : a.success with
  | false =>
    simp only [hs, Bool.not_false, if_true] at h
    rw [← Except.ok.inj h]
    simp [errorResponse]
  | true =>
    simp only [hs, Bool.not_true, Bool.false_eq_true, if_false] at h
    cases hu : a.user with
    | none => simp [hu] at h
    | some user =>
      simp only [hu] at h
      by_cases hreq : isTOTPRequired st user.id = some true
      · simp only [hreq, if_true] at h
        cases hc : truthy totpCode with
        | false =>
          simp only [hc, Bool.not_false, if_true] at h
          rw [← Except.ok.inj h]
          simp [requiresTOTPResponse, hreq]
        | true =>
          simp only [hc, Bool.not_true, Bool.false_eq_true, if_false] at h
          rcases hv : verifyTOTPCode L E st user.id (totpCode.getD "") now with ⟨vres, vst⟩
          rw [hv] at h
          cases vres with
          | error e => simp at h
          | ok r =>
            simp only at h
            cases hrs : r.success with
            | false =>
              simp only [hrs, Bool.not_false, if_true] at h
              rw [← Except.ok.inj h]
              simp [hreq, hrs, hv]
            | true =>
              simp only [hrs, Bool.not_true, Bool.false_eq_true, if_false] at h
              have ht := loginIssue_fst L E vst user (some true) now resp h
              simp [ht, hreq, hrs, hv]
      · simp only [hreq, if_false] at h
        have ht := loginIssue_fst L E st user _ now resp h
        simp [ht, hreq]

/-- C3 witness: `alice@example.com`, whose account `u1` is Active, logs in with the
right password and the code `123456` and receives a token. -/
theorem login_token_iff_witness :
    (loginTry demoLib demoEnv aliceUsers activeStore (some "alice@example.com")
        (some "pw123456") (some "123456") 1090).1 =
      .ok { status := 200, success := some true, error := none, message := none,
            requiresTOTP := none, token := some "u1.alice@example.com.jwt-signing-key",
            user := some { id := "u1", email := "alice@example.com" },
            totpEnabled := some true } ∧
    (login demoLib demoEnv aliceUsers activeStore (some "alice@example.com")
        (some "pw123456") (some "123456") 1090).1.token =
      some "u1.alice@example.com.jwt-signing-key" ∧
    ∃ user, (authenticateUser demoLib aliceUsers (some "alice@example.com")
          (some "pw123456")).success = true ∧
      (authenticateUser demoLib aliceUsers (some "alice@example.com")
          (some "pw123456")).user = some user ∧
      (isTOTPRequired activeStore user.id ≠ some true ∨
        (truthy (some "123456") = true ∧
          ∃ r, (verifyTOTPCode demoLib demoEnv activeStore user.id
              ((some "123456" : Option String).getD "") 1090).1 = .ok r ∧
            r.success = true)) :=
  ⟨rfl, rfl,
   (login_token_iff demoLib demoEnv aliceUsers activeStore (some "alice@example.com")
     (some "pw123456") (some "123456") 1090 _ rfl).2.1.1 rfl⟩

/-- C11. For non-empty email and password, `authenticateUser` returns the same
result when no account exists for the email as when the account exists but the
password does not match its hash: `success: false` with the error
`Invalid credentials` and no user.  The function only reads the account
store, and the login handler answers both cases with the same response and
leaves the settings store as it was. -/
theorem authenticateUser_failures_indistinguishable (L : Lib) (E : Env)
    (users1 users2 : UserStore) (st : TotpStore) (email password : String)
    (code : Option String) (now : Nat) (u : User)
    (he : email ≠ "") (hp : password ≠ "")
    (habsent : JsMap.get users1 email = none)
    (hpresent : JsMap.get users2 email = some u)
    (hmismatch : L.bcryptCompare password u.password = .ok false) :
    authenticateUser L users1 (some email) (some password) =
      authenticateUser L users2 (some email) (some password) ∧
    authenticateUser L users1 (some email) (some password) =
      { success := false, error := some "Invalid credentials", user := none } ∧
    login L E users1 st (some email) (some password) code now =
      login L E users2 st (some email) (some password) code now ∧
    login L E users1 st (some email) (some password) code now =
      (errorResponse 401 (some "Invalid credentials"), st) := by
  have h1 := authenticateUser_absent L users1 email password he hp habsent
  have h2 := authenticateUser_mismatch L users2 email password u he hp hpresent hmismatch
  refine ⟨h1.trans h2.symm, h1, ?_, ?_⟩
  · rw [login_of_auth_failure L E users1 st _ _ code now _ h1,
      login_of_auth_failure L E users2 st _ _ code now _ h2]
  · exact login_of_auth_failure L E users1 st _ _ code now _ h1

/-- C11 witness: `alice@example.com` with a wrong password, against the empty
account store and against the store where she is registered. -/
theorem authenticateUser_failures_indistinguishable_witness :
    authenticateUser demoLib [] (some "alice@example.com") (some "wrong-pw") =
      authenticateUser demoLib aliceUsers (some "alice@example.com") (some "wrong-pw") ∧
    authenticateUser demoLib [] (some "alice@example.com") (some "wrong-pw") =
      { success := false, error := some "Invalid credentials", user := none } ∧
    login demoLib demoEnv [] activeStore (some "alice@example.com") (some "wrong-pw")
        (some "123456") 1090 =
      login demoLib demoEnv aliceUsers activeStore (some "alice@example.com") (some "wrong-pw")
        (some "123456") 1090 ∧
    login demoLib demoEnv [] activeStore (some "alice@example.com") (some "wrong-pw")
        (some "123456") 1090 =
      (errorResponse 401 (some "Invalid credentials"), activeStore) :=
  authenticateUser_failures_indistinguishable demoLib demoEnv [] aliceUsers activeStore
    "alice@example.com" "wrong-pw" (some "123456") 1090
    { id := "u1", email := "alice@example.com", password := "$2a$10$7pw123456", createdAt := 900 }
    (by decide) (by decide) rfl (by decide) rfl

/-- C12. Decrypting what `encryptSecret` returned gives back the secret, for every
configuration of the master key (a pass-phrase, a 64-character hex key, or
none): provided the drawn IV renders without a colon, the cipher output for
the secret has no colon and is inverted by the decipher under the same key,
and the base64 rendering of the secret has no colon and decodes to it. -/
theorem decryptSecret_encryptSecret (L : Lib) (E : Env) (iv secret : String)
    (hiv : includesColon iv = false)
    (hcipher : ∀ key c, L.cipherHex key secret = .ok c →
      includesColon c = false ∧ L.decipherUtf8 key c = .ok secret)
    (hb64 : includesColon (L.base64Encode secret) = false ∧
      L.base64Decode (L.base64Encode secret) = .ok secret) :
    decryptSecret L E (encryptSecret L E iv secret) = .ok secret := by
  unfold encryptSecret encryptSecretTry
  cases hk : deriveKey L E with
  | error e =>
    simp only
    exact decryptSecret_of_no_colon L E _ _ hb64.1 hb64.2
  | ok key =>
    simp only
    cases hc : L.cipherHex key secret with
    | error e =>
      simp only
      exact decryptSecret_of_no_colon L E _ _ hb64.1 hb64.2
    | ok c =>
      simp only
      obtain ⟨hcc, hdec⟩ := hcipher key c hc
      simp [decryptSecret, decryptSecretTry, includesColon_envelope, hk,
        splitColon_envelope iv c hiv hcc, hdec]

/-- C12 witness: the secret `JBSWY3DPEHPK3PXP` under a pass-phrase key and under a
64-character hex key. -/
theorem decryptSecret_encryptSecret_witness :
    decryptSecret demoLib demoEnv (encryptSecret demoLib demoEnv demoDraw.iv "JBSWY3DPEHPK3PXP")
      = .ok "JBSWY3DPEHPK3PXP" ∧
    decryptSecret demoLib hexKeyEnv
      (encryptSecret demoLib hexKeyEnv demoDraw.iv "JBSWY3DPEHPK3PXP") = .ok "JBSWY3DPEHPK3PXP" :=
  have hc : ∀ key c, demoLib.cipherHex key "JBSWY3DPEHPK3PXP" = .ok c →
      includesColon c = false ∧ demoLib.decipherUtf8 key c = .ok "JBSWY3DPEHPK3PXP" := by
    intro key c h
    obtain rfl : "c0ffee" ++ "JBSWY3DPEHPK3PXP" = c := Except.ok.inj h
    exact ⟨by decide, rfl⟩
  ⟨decryptSecret_encryptSecret demoLib demoEnv demoDraw.iv "JBSWY3DPEHPK3PXP" (by decide) hc
     ⟨by decide, rfl⟩,
   decryptSecret_encryptSecret demoLib hexKeyEnv demoDraw.iv "JBSWY3DPEHPK3PXP" (by decide) hc
     ⟨by decide, rfl⟩⟩

/-- C13 counterexample. With the master key absent, `encryptSecret` signals no
error: it returns the base64 rendering of the secret, and `decryptSecret`
recovers the secret from it although no key is configured. -/
theorem encryptSecret_absent_key_no_error :
    encryptSecret demoLib noKeyEnv demoDraw.iv "JBSWY3DPEHPK3PXP" =
      demoLib.base64Encode "JBSWY3DPEHPK3PXP" ∧
    decryptSecret demoLib noKeyEnv
      (encryptSecret demoLib noKeyEnv demoDraw.iv "JBSWY3DPEHPK3PXP") = .ok "JBSWY3DPEHPK3PXP" :=
  ⟨rfl, rfl⟩

/-- C13 (amended). When the master key is absent, `encryptSecret` does not signal
an error: reading the key throws inside its `try` block and the `catch`
returns the base64 rendering of the secret, whatever the secret and the IV.
When that rendering has no colon and decodes to the secret, `decryptSecret`
recovers the secret from it under every key configuration, so the returned
value is reversible without a key. -/
theorem encryptSecret_absent_key_falls_back (L : Lib) (E : Env) (iv secret : String)
    (hkey : E.ENCRYPTION_KEY = none) :
    encryptSecret L E iv secret = L.base64Encode secret ∧
    (includesColon (L.base64Encode secret) = false →
      L.base64Decode (L.base64Encode secret) = .ok secret →
      ∀ E2 : Env, decryptSecret L E2 (encryptSecret L E iv secret) = .ok secret) := by
  have h : encryptSecret L E iv secret = L.base64Encode secret := by
    simp [encryptSecret, encryptSecretTry, deriveKey, hkey]
  refine ⟨h, ?_⟩
  intro hc hd E2
  rw [h]
  exact decryptSecret_of_no_colon L E2 _ _ hc hd

/-- C13 (amended) witness: the configuration without a master key. -/
theorem encryptSecret_absent_key_falls_back_witness :
    encryptSecret demoLib noKeyEnv demoDraw.iv "JBSWY3DPEHPK3PXP" =
      demoLib.base64Encode "JBSWY3DPEHPK3PXP" ∧
    decryptSecret demoLib hexKeyEnv
      (encryptSecret demoLib noKeyEnv demoDraw.iv "JBSWY3DPEHPK3PXP") = .ok "JBSWY3DPEHPK3PXP" :=
  ⟨(encryptSecret_absent_key_falls_back demoLib noKeyEnv demoDraw.iv "JBSWY3DPEHPK3PXP" rfl).1,
   (encryptSecret_absent_key_falls_back demoLib noKeyEnv demoDraw.iv "JBSWY3DPEHPK3PXP" rfl).2
     (by decide) rfl hexKeyEnv⟩

/-- C14, the code at the failing input. The envelope `a:b:c` has two delimiters:
the `try` block of `decryptSecret` throws (the format error when a key is
configured), but the `catch` hands the whole string to the base64 decoder and
returns whatever it yields; `Failed to decrypt secret` is signalled only if
that decoder throws.  With the toy library the call returns a string. -/
theorem decryptSecret_malformed_envelope_falls_back (L : Lib) (E : Env) :
    splitColon "a:b:c" = ["a", "b", "c"] ∧
    (∀ k, E.ENCRYPTION_KEY = some k →
      decryptSecretTry L E "a:b:c" = .error "Invalid encrypted data format") ∧
    decryptSecret L E "a:b:c" =
      (match L.base64Decode "a:b:c" with
       | .ok s => .ok s
       | .error _ => .error "Failed to decrypt secret") ∧
    decryptSecret demoLib demoEnv "a:b:c" = .ok ":c" := by
  have hs : splitColon "a:b:c" = ["a", "b", "c"] := by decide
  have hi : includesColon "a:b:c" = true := by decide
  have ht : ∃ e, decryptSecretTry L E "a:b:c" = .error e := by
    unfold decryptSecretTry deriveKey
    cases E.ENCRYPTION_KEY with
    | none => simp [hi]
    | some k => by_cases h64 : jsLength k = 64 <;> simp [hi, hs, h64]
  refine ⟨hs, ?_, ?_, rfl⟩
  · intro k hk
    unfold decryptSecretTry deriveKey
    by_cases h64 : jsLength k = 64 <;> simp [hi, hs, hk, h64]
  · obtain ⟨e, he⟩ := ht
    unfold decryptSecret
    rw [he]

/-- C15, the code at the failing input. For the master key made of 64 letters `z`
the length test selects hex decoding, so the derived key is whatever the hex
decoder returns for it; the decoder of node truncates at the first pair that is
not hexadecimal, which leaves a key of 0 bytes instead of 32. -/
theorem deriveKey_non_hex_key_of_length_64 :
    (∀ k, badHexKeyEnv.ENCRYPTION_KEY = some k → jsLength k = 64) ∧
    (∀ L : Lib, deriveKey L badHexKeyEnv =
      .ok (L.hexDecode "zzzzzzzzzzzzzzzzzzzzzzzzzzzzzzzzzzzzzzzzzzzzzzzzzzzzzzzzzzzzzzzz")) ∧
    bufferFromHex "zzzzzzzzzzzzzzzzzzzzzzzzzzzzzzzzzzzzzzzzzzzzzzzzzzzzzzzzzzzzzzzz".toList = [] ∧
    deriveKey demoLib badHexKeyEnv = .ok [] ∧
    (deriveKey demoLib hexKeyEnv).map List.length = .ok 32 := by
  refine ⟨?_, ?_, by decide, rfl, rfl⟩
  · intro k hk
    obtain rfl := Option.some.inj hk
    decide
  · intro L
    have h : jsLength "zzzzzzzzzzzzzzzzzzzzzzzzzzzzzzzzzzzzzzzzzzzzzzzzzzzzzzzzzzzzzzzz" = 64 := by
      decide
    simp [deriveKey, badHexKeyEnv, h]

/-- C16 counterexample. With `JWT_SECRET` absent and `ENCRYPTION_KEY` set,
`validateEnvironment` returns normally; it only emits the warning. -/
theorem validateEnvironment_returns_without_jwt_secret :
    noJwtEnv.JWT_SECRET = none ∧
    validateEnvironment noJwtEnv =
      .ok ["⚠️  JWT_SECRET not found in .env file, using fallback"] :=
  ⟨rfl, rfl⟩

/-- C16 (amended). The function `validateEnvironment` fails exactly when
`ENCRYPTION_KEY` is not set; when it is set the function returns normally,
whether or not `JWT_SECRET` is set, and an absent or empty `JWT_SECRET` only
adds the warning `JWT_SECRET not found in .env file, using fallback`. -/
theorem validateEnvironment_fails_iff (E : Env) :
    ((∃ e, validateEnvironment E = .error e) ↔ E.ENCRYPTION_KEY = none) ∧
    (E.ENCRYPTION_KEY ≠ none →
      ∃ warnings, validateEnvironment E = .ok warnings ∧
        ("⚠️  JWT_SECRET not found in .env file, using fallback" ∈ warnings ↔
          truthy E.JWT_SECRET = false)) := by
  unfold validateEnvironment
  cases hk : E.ENCRYPTION_KEY with
  | none => simp
  | some k =>
    cases hj : truthy E.JWT_SECRET <;> by_cases hke : k = "" <;> simp [hke, truthy]

/-- C16 (amended) witness: the configuration without `JWT_SECRET`. -/
theorem validateEnvironment_fails_iff_witness :
    ∃ warnings, validateEnvironment noJwtEnv = .ok warnings ∧
      ("⚠️  JWT_SECRET not found in .env file, using fallback" ∈ warnings ↔
        truthy noJwtEnv.JWT_SECRET = false) :=
  (validateEnvironment_fails_iff noJwtEnv).2 (by decide)

/-- C17. After a successful `setupTOTP` call the stored `backup_codes_hash` list
has the length of the returned `backupCodes` list and its i-th entry is the
SHA-256 hex digest of the i-th returned code.  The stored record consists of
the encrypted secret, the flags, these digests, the counter, the empty lockout
and the creation time: no field holds a plaintext code, and, digests being 64
characters long, no stored digest equals a returned code. -/
theorem setupTOTP_stores_backup_code_hashes (L : Lib) (E : Env) (st : TotpStore)
    (userId userEmail : String) (d : SetupDraw)
    (hs : (setupTOTP L E st userId userEmail d).1.success = true)
    (hdigest : ∀ c ∈ generateBackupCodes d.rand, (L.sha256Hex c).length = 64) :
    ∃ codes key r,
      (setupTOTP L E st userId userEmail d).1.backupCodes = some codes ∧
      (setupTOTP L E st userId userEmail d).1.manualEntryKey = some key ∧
      JsMap.get (setupTOTP L E st userId userEmail d).2 userId = some r ∧
      r.backup_codes_hash.length = codes.length ∧
      (∀ i : Nat, r.backup_codes_hash[i]? = (codes[i]?).map L.sha256Hex) ∧
      r = { totp_secret_encrypted := encryptSecret L E d.iv key
            is_enabled := false
            is_verified := false
            backup_codes_hash := codes.map L.sha256Hex
            failed_attempts := 0
            locked_until := none
            created_at := d.now } ∧
      (∀ c ∈ codes, c ∉ r.backup_codes_hash) := by
  obtain ⟨secret, _, hkey, hcodes, hst⟩ := setupTOTP_of_success L E st userId userEmail d hs
  refine ⟨generateBackupCodes d.rand, secret.base32, freshRecord L E d secret.base32,
    hcodes, hkey, ?_, ?_, ?_, rfl, ?_⟩
  · rw [hst, JsMap.get_set_self]
  · simp [freshRecord]
  · intro i
    simp [freshRecord, List.getElem?_map]
  · intro c hc hmem
    simp only [freshRecord, List.mem_map] at hmem
    obtain ⟨c2, hc2, heq⟩ := hmem
    have h64 := hdigest c2 hc2
    rw [heq] at h64
    rw [generateBackupCodes_eq_map, List.mem_map] at hc
    obtain ⟨i, _, rfl⟩ := hc
    have h8 := (backupCode_shape (d.rand i)).1
    omega

/-- C17 witness: account `u1` enrolling on the empty store. -/
theorem setupTOTP_stores_backup_code_hashes_witness :
    ∃ codes key r,
      (setupTOTP demoLib demoEnv [] "u1" "a@b.c" demoDraw).1.backupCodes = some codes ∧
      (setupTOTP demoLib demoEnv [] "u1" "a@b.c" demoDraw).1.manualEntryKey = some key ∧
      JsMap.get (setupTOTP demoLib demoEnv [] "u1" "a@b.c" demoDraw).2 "u1" = some r ∧
      r.backup_codes_hash.length = codes.length ∧
      (∀ i : Nat, r.backup_codes_hash[i]? = (codes[i]?).map demoLib.sha256Hex) ∧
      r = { totp_secret_encrypted := encryptSecret demoLib demoEnv demoDraw.iv key
            is_enabled := false
            is_verified := false
            backup_codes_hash := codes.map demoLib.sha256Hex
            failed_attempts := 0
            locked_until := none
            created_at := demoDraw.now } ∧
      (∀ c ∈ codes, c ∉ r.backup_codes_hash) :=
  setupTOTP_stores_backup_code_hashes demoLib demoEnv [] "u1" "a@b.c" demoDraw
    (by decide) (by decide)

/-- C18. For every count `n` and every outcome of the random source,
`generateBackupCodes(n)` returns exactly `n` codes (8 when the count is left
out), each a string of exactly 8 characters, all of them among `0`–`9` and
`A`–`F`. -/
theorem generateBackupCodes_shape (rand : Nat → Nat) (n : Nat) :
    (generateBackupCodes rand n).length = n ∧
    (generateBackupCodes rand).length = 8 ∧
    (∀ c ∈ generateBackupCodes rand n,
      c.length = 8 ∧ ∀ ch ∈ c.toList, ch ∈ "0123456789ABCDEF".toList) := by
  refine ⟨by simp [generateBackupCodes], by simp [generateBackupCodes], ?_⟩
  intro c hc
  rw [generateBackupCodes_eq_map, List.mem_map] at hc
  obtain ⟨i, _, rfl⟩ := hc
  exact backupCode_shape (rand i)

/-- C18 witness: the third of eight codes for the draws of `demoDraw2`. -/
theorem generateBackupCodes_shape_witness :
    "0000002A" ∈ generateBackupCodes demoDraw2.rand 8 ∧
    "0000002A".length = 8 ∧ ∀ ch ∈ "0000002A".toList, ch ∈ "0123456789ABCDEF".toList :=
  ⟨by decide, (generateBackupCodes_shape demoDraw2.rand 8).2.2 "0000002A" (by decide)⟩

/-- C19 counterexample. When the random source returns the same four bytes for
every draw, the 8 backup codes are all equal. -/
theorem generateBackupCodes_not_distinct :
    generateBackupCodes (fun _ => 0) 8 =
      ["00000000", "00000000", "00000000", "00000000",
       "00000000", "00000000", "00000000", "00000000"] ∧
    ¬ (generateBackupCodes (fun _ => 0) 8).Nodup := by
  decide

/-- C19 (amended). The codes returned by `generateBackupCodes(n)`, in particular
the 8 codes of the default call, are pairwise distinct exactly when the
4-byte draws of the random source are pairwise distinct: the function has no
step that rejects or redraws a repeated value. -/
theorem generateBackupCodes_nodup_iff (rand : Nat → Nat) (n : Nat) :
    (generateBackupCodes rand n).Nodup ↔
      ∀ i, i < n → ∀ j, j < n →
        rand i % 4294967296 = rand j % 4294967296 → i = j := by
  rw [generateBackupCodes_eq_map, List.nodup_map_iff_inj_on (List.nodup_range n)]
  constructor
  · intro h i hi j hj hij
    exact h i (List.mem_range.2 hi) j (List.mem_range.2 hj) ((backupCode_eq_iff _ _).2 hij)
  · intro h i hi j hj hij
    exact h i (List.mem_range.1 hi) j (List.mem_range.1 hj) ((backupCode_eq_iff _ _).1 hij)

/-- C19 (amended) witness: eight distinct draws give eight distinct codes. -/
theorem generateBackupCodes_nodup_iff_witness :
    (generateBackupCodes demoDraw.rand 8).Nodup :=
  (generateBackupCodes_nodup_iff demoDraw.rand 8).2 (by decide)

/-- C20. For an account whose settings record holds a secret that decrypts and for
which a code can be computed, `verifyTOTPCode` reports success and activates
the record when given the code that the secret produces at a time `t` whose
30-second step is within 5 steps of the current step, before or after
(times in seconds).  The library contract used is that of
`speakeasy.totp.verify`: a token equal to the code of a step within the
two-sided window around the current step is accepted. -/
theorem verifyTOTPCode_accepts_window (L : Lib) (E : Env) (st : TotpStore)
    (userId : String) (r : TotpSettings) (secret token current : String) (now t : Nat)
    (hget : JsMap.get st userId = some r)
    (hsecret : decryptSecret L E r.totp_secret_encrypted = .ok secret)
    (hcurrent : L.totp secret now = .ok current)
    (hlib : ∀ tok w t1 t2, t1 / 30 ≤ t2 / 30 + w → t2 / 30 ≤ t1 / 30 + w →
      L.totp secret t2 = .ok tok → L.totpVerify secret tok w t1 = .ok true)
    (hlo : now / 30 ≤ t / 30 + 5) (hhi : t / 30 ≤ now / 30 + 5)
    (htoken : L.totp secret t = .ok token) :
    (verifyTOTPCode L E st userId token now).1 =
      .ok { success := true, error := none, message := some "TOTP verified" } ∧
    (verifyTOTPCode L E st userId current now).1 =
      .ok { success := true, error := none, message := some "TOTP verified" } ∧
    isTOTPRequired (verifyTOTPCode L E st userId token now).2 userId = some true := by
  have hv := hlib token 5 now t hlo hhi htoken
  have hv0 := hlib current 5 now now (by omega) (by omega) hcurrent
  refine ⟨?_, ?_, ?_⟩
  · simp [verifyTOTPCode, hget, hsecret, hcurrent, hv]
  · simp [verifyTOTPCode, hget, hsecret, hcurrent, hv0]
  · have hst : (verifyTOTPCode L E st userId token now).2 =
        JsMap.set st userId
          { r with is_verified := true, is_enabled := true, failed_attempts := 0 } := by
      simp [verifyTOTPCode, hget, hsecret, hcurrent, hv]
    rw [hst, isTOTPRequired_set]
    rfl

/-- C20 witness: at time 1000 (step 33) the pending account `u1` is verified with
the code generated at time 880, 4 steps earlier, and with the current code. -/
theorem verifyTOTPCode_accepts_window_witness :
    (verifyTOTPCode stepLib demoEnv stepStore "u1" (stepCode 29) 1000).1 =
      .ok { success := true, error := none, message := some "TOTP verified" } ∧
    (verifyTOTPCode stepLib demoEnv stepStore "u1" (stepCode 33) 1000).1 =
      .ok { success := true, error := none, message := some "TOTP verified" } ∧
    isTOTPRequired (verifyTOTPCode stepLib demoEnv stepStore "u1" (stepCode 29) 1000).2 "u1"
      = some true :=
  verifyTOTPCode_accepts_window stepLib demoEnv stepStore "u1"
    (freshRecord stepLib demoEnv demoDraw "JBSWY3DPEHPK3PXP") "JBSWY3DPEHPK3PXP"
    (stepCode 29) (stepCode 33) 1000 880 (by decide) rfl rfl
    (stepLib_window "JBSWY3DPEHPK3PXP") (by decide) (by decide) rfl

/-- C21 counterexample. Two envelopes with the same ciphertext part `zz` and
different colon-free IV parts: the ciphertext part does not decrypt, the
`catch` of `decryptSecret` decodes the whole envelope as base64, IV included,
and the two results differ.  The same happens for a ciphertext part that would
decrypt when no master key is configured. -/
theorem decryptSecret_result_depends_on_iv :
    includesColon demoDraw.iv = false ∧ includesColon demoDraw2.iv = false ∧
    decryptSecret strictLib demoEnv (demoDraw.iv ++ ":" ++ "zz") =
      .ok "102030405060708090a0b0c0d0e0f:zz" ∧
    decryptSecret strictLib demoEnv (demoDraw2.iv ++ ":" ++ "zz") =
      .ok "112131415161718191a1b1c1d1e1f:zz" ∧
    decryptSecret strictLib demoEnv (demoDraw.iv ++ ":" ++ "zz") ≠
      decryptSecret strictLib demoEnv (demoDraw2.iv ++ ":" ++ "zz") ∧
    decryptSecret demoLib noKeyEnv (demoDraw.iv ++ ":" ++ "c0ffeeABC") ≠
      decryptSecret demoLib noKeyEnv (demoDraw2.iv ++ ":" ++ "c0ffeeABC") := by
  have h1 : decryptSecret strictLib demoEnv (demoDraw.iv ++ ":" ++ "zz") =
      .ok "102030405060708090a0b0c0d0e0f:zz" := rfl
  have h2 : decryptSecret strictLib demoEnv (demoDraw2.iv ++ ":" ++ "zz") =
      .ok "112131415161718191a1b1c1d1e1f:zz" := rfl
  have h3 : decryptSecret demoLib noKeyEnv (demoDraw.iv ++ ":" ++ "c0ffeeABC") =
      .ok "102030405060708090a0b0c0d0e0f:c0ffeeABC" := rfl
  have h4 : decryptSecret demoLib noKeyEnv (demoDraw2.iv ++ ":" ++ "c0ffeeABC") =
      .ok "112131415161718191a1b1c1d1e1f:c0ffeeABC" := rfl
  refine ⟨by decide, by decide, h1, h2, ?_, ?_⟩
  · rw [h1, h2]
    intro h
    exact absurd (Except.ok.inj h) (by decide)
  · rw [h3, h4]
    intro h
    exact absurd (Except.ok.inj h) (by decide)

/-- C21 (amended). The IV stored in an envelope takes no part in the cipher path
of `decryptSecret`: for two envelopes with the same ciphertext part and
colon-free IV parts the `try` block yields the same plaintext or the same
error, so when the ciphertext part has no colon and deciphers under the
configured key, `decryptSecret` returns that plaintext for both.  The
ciphertext part produced by `encryptSecret` is the cipher output for the
derived key and the secret and is the same for every drawn IV (when the
cipher path throws, the result is the base64 rendering, which holds no IV). -/
theorem decryptSecret_ignores_iv (L : Lib) (E : Env) :
    (∀ iv1 iv2 c : String, includesColon iv1 = false → includesColon iv2 = false →
      decryptSecretTry L E (iv1 ++ ":" ++ c) = decryptSecretTry L E (iv2 ++ ":" ++ c)) ∧
    (∀ (iv1 iv2 c s : String) (key : List Nat),
      includesColon iv1 = false → includesColon iv2 = false → includesColon c = false →
      deriveKey L E = .ok key → L.decipherUtf8 key c = .ok s →
      decryptSecret L E (iv1 ++ ":" ++ c) = .ok s ∧
      decryptSecret L E (iv2 ++ ":" ++ c) = .ok s) ∧
    (∀ secret iv1 iv2 : String,
      (∃ key c, deriveKey L E = .ok key ∧ L.cipherHex key secret = .ok c ∧
        encryptSecret L E iv1 secret = iv1 ++ ":" ++ c ∧
        encryptSecret L E iv2 secret = iv2 ++ ":" ++ c) ∨
      (encryptSecret L E iv1 secret = L.base64Encode secret ∧
        encryptSecret L E iv2 secret = L.base64Encode secret)) := by
  refine ⟨?_, ?_, ?_⟩
  · intro iv1 iv2 c h1 h2
    rw [decryptSecretTry_envelope L E iv1 c h1, decryptSecretTry_envelope L E iv2 c h2]
  · intro iv1 iv2 c s key h1 h2 hc hk hd
    have hsplit : splitColon c = [c] := by
      unfold includesColon at hc
      unfold splitColon
      rw [splitColonChars_of_no_colon _ hc]
      simp [String.toList]
    have ht : ∀ iv, includesColon iv = false →
        decryptSecret L E (iv ++ ":" ++ c) = .ok s := by
      intro iv hiv
      unfold decryptSecret
      rw [decryptSecretTry_envelope L E iv c hiv, hk, hsplit]
      simp [hd]
    exact ⟨ht iv1 h1, ht iv2 h2⟩
  · intro secret iv1 iv2
    cases hk : deriveKey L E with
    | error e =>
      exact Or.inr ⟨by simp [encryptSecret, encryptSecretTry, hk],
        by simp [encryptSecret, encryptSecretTry, hk]⟩
    | ok key =>
      cases hc : L.cipherHex key secret with
      | error e =>
        exact Or.inr ⟨by simp [encryptSecret, encryptSecretTry, hk, hc],
          by simp [encryptSecret, encryptSecretTry, hk, hc]⟩
      | ok c =>
        exact Or.inl ⟨key, c, rfl, hc, by simp [encryptSecret, encryptSecretTry, hk, hc],
          by simp [encryptSecret, encryptSecretTry, hk, hc]⟩

/-- C21 (amended) witness: the envelope of the secret `JBSWY3DPEHPK3PXP` under two
different IVs. -/
theorem decryptSecret_ignores_iv_witness :
    decryptSecret demoLib demoEnv (demoDraw.iv ++ ":" ++ "c0ffeeJBSWY3DPEHPK3PXP") =
      .ok "JBSWY3DPEHPK3PXP" ∧
    decryptSecret demoLib demoEnv (demoDraw2.iv ++ ":" ++ "c0ffeeJBSWY3DPEHPK3PXP") =
      .ok "JBSWY3DPEHPK3PXP" :=
  (decryptSecret_ignores_iv demoLib demoEnv).2.1 demoDraw.iv demoDraw2.iv
    "c0ffeeJBSWY3DPEHPK3PXP" "JBSWY3DPEHPK3PXP" (List.replicate 32 7)
    (by decide) (by decide) (by decide) rfl rfl

end TotpAuth
